import Mathlib

/-!
# DistanceCalculator (src/src/DistanceCalculator.js)

A shallow embedding of the `DistanceCalculator` class: every static method of the class is a
Lean function of the same name.  The Turf.js functions the class calls are not part of the
repository; they are taken as a record of arbitrary, possibly failing functions (`Turf`).

JavaScript exceptions are modelled with `Except JsError`: `throw` is `Except.error`, and a
`try { .. } catch` block is an explicit `match` on the result of its body.  `console.warn` has no
effect on the returned value and is left out.
-/

namespace DistanceCalculator

/-! ## Values -/

/-- A JavaScript number as far as the class observes it: the class only creates `Infinity` and
`0`, and compares numbers with `<`.  Finite values are rationals (every finite double is one). -/
inductive JsNum where
  | nan
  | negInf
  | fin (q : ℚ)
  | posInf
  deriving DecidableEq

namespace JsNum

/-- The JavaScript comparison `a < b` on numbers (false as soon as one side is `NaN`). -/
def lt : JsNum → JsNum → Bool
  | nan, _ => false
  | _, nan => false
  | negInf, negInf => false
  | negInf, _ => true
  | fin _, negInf => false
  | fin a, fin b => decide (a < b)
  | fin _, posInf => true
  | posInf, _ => false

/-- The JavaScript comparison `a <= b` on numbers (false as soon as one side is `NaN`). -/
def le : JsNum → JsNum → Bool
  | nan, _ => false
  | _, nan => false
  | negInf, _ => true
  | fin _, negInf => false
  | fin a, fin b => decide (a ≤ b)
  | fin _, posInf => true
  | posInf, posInf => true
  | posInf, _ => false

/-- A finite real number that is not negative. -/
def IsNonNegFinite (x : JsNum) : Prop := ∃ q : ℚ, x = fin q ∧ 0 ≤ q

end JsNum

/-- A JavaScript value found in a `coordinates` member: a number, an array, or `undefined`. -/
inductive JsVal where
  | undefined
  | num (x : JsNum)
  | arr (items : List JsVal)

namespace JsVal

/-- JavaScript truthiness: `undefined`, `0` and `NaN` are falsy, every array is truthy. -/
def truthy : JsVal → Bool
  | undefined => false
  | num (JsNum.fin q) => decide (q ≠ 0)
  | num JsNum.nan => false
  | num _ => true
  | arr _ => true

/-- The test `Array.isArray(v) && v.length > 1`. -/
def isArrayLongerThanOne : JsVal → Bool
  | arr items => decide (items.length > 1)
  | _ => false

end JsVal

/-- A GeoJSON geometry object: its `type` tag and its `coordinates` member. -/
structure Geometry where
  type : String
  coordinates : JsVal

/-- A GeoJSON object with an optional `geometry` member: a Feature (its properties are never read
by the class), or any other object, such as a FeatureCollection, that has no `geometry`. -/
structure Feature where
  geometry : Option Geometry

/-- An argument of a Turf function that accepts a Feature as well as a bare Geometry. -/
inductive GeoJson where
  | feature (f : Feature)
  | geometry (g : Geometry)

/-- The exceptions that can be in flight inside the class. -/
inductive JsError where
  /-- `new Error("Unsupported geometry type: " + geomType)` -/
  | unsupportedGeometry (geomType : String)
  /-- `new Error('Invalid polygon boundary geometry')` -/
  | invalidPolygonBoundary
  /-- A `TypeError` of the runtime: a member read on `undefined`, `forEach` on a non-array. -/
  | typeError
  /-- An error thrown by a Turf function, with its message. -/
  | turf (message : String)
  deriving DecidableEq

/-- The object returned by `calculateFeatureDistance`. -/
structure DistanceResult where
  distance : JsNum
  isContaining : Bool
  deriving DecidableEq

/-! ## The Turf.js functions used by the class -/

/-- The Turf.js functions the class calls.  Each may throw (`Except.error` with the message). -/
structure Turf where
  booleanPointInPolygon : Feature → Feature → Except String Bool
  polygonToLine : GeoJson → Except String Feature
  pointToLineDistance : Feature → GeoJson → Except String JsNum
  distance : Feature → Feature → Except String JsNum
  nearestPointOnLine : Feature → Feature → Except String (Option Feature)
  point : JsVal → Except String Feature
  lineString : JsVal → Except String Feature
  polygon : JsVal → Except String Feature

/-- A call of a Turf function from the class: what it throws is a `JsError.turf`. -/
def call {α : Type} : Except String α → Except JsError α
  | .ok a => .ok a
  | .error m => .error (JsError.turf m)

/-! ## Control flow helpers -/

/-- The loop `items.forEach(cb)` over the elements of an array, threading the variables the
callback assigns to; an exception thrown by the callback ends the loop and propagates. -/
def forEachList {σ : Type} (cb : σ → JsVal → Except JsError σ) : σ → List JsVal → Except JsError σ
  | s, [] => .ok s
  | s, x :: xs =>
    match cb s x with
    | .ok s1 => forEachList cb s1 xs
    | .error e => .error e

/-- The call `v.forEach(cb)`: a `TypeError` unless `v` is an array. -/
def forEach {σ : Type} (v : JsVal) (cb : σ → JsVal → Except JsError σ) (init : σ) :
    Except JsError σ :=
  match v with
  | .arr items => forEachList cb init items
  | _ => .error JsError.typeError

/-- The statement `if (dist < minDist) { minDist = dist; }`: the new value of `minDist`. -/
def updateMin (minDist dist : JsNum) : JsNum :=
  if dist.lt minDist then dist else minDist

/-! ## The distance methods -/

/-- The two calls `turf.distance(coordinatePoint, turf.point(pointCoords), ..)` made for one
position (lines 170-171 and 184-185): the point-to-point distance to that position. -/
def pointDistance (T : Turf) (coordinatePoint : Feature) (pointCoords : JsVal) :
    Except JsError JsNum := do
  let pointFeature ← call (T.point pointCoords)
  call (T.distance coordinatePoint pointFeature)

/-- The two calls `turf.pointToLineDistance(coordinatePoint, turf.lineString(lineCoords), ..)`
made for one line of a multi-part geometry (lines 86-87, 118-119 and 151-152): the
point-to-line distance to that line. -/
def lineDistance (T : Turf) (coordinatePoint : Feature) (lineCoords : JsVal) :
    Except JsError JsNum := do
  let lineSegment ← call (T.lineString lineCoords)
  call (T.pointToLineDistance coordinatePoint (GeoJson.feature lineSegment))

/-- `calculateDistanceToPoint` (lines 168-172). -/
def calculateDistanceToPoint (T : Turf) (coordinatePoint : Feature) (point : Geometry) :
    Except JsError JsNum :=
  pointDistance T coordinatePoint point.coordinates

/-- The callback of the loop of `calculateDistanceToMultiPoint` (lines 183-189). -/
def multiPointStep (T : Turf) (coordinatePoint : Feature) (minDist : JsNum) (pointCoords : JsVal) :
    Except JsError JsNum := do
  let dist ← pointDistance T coordinatePoint pointCoords
  pure (updateMin minDist dist)

/-- `calculateDistanceToMultiPoint` (lines 180-192). -/
def calculateDistanceToMultiPoint (T : Turf) (coordinatePoint : Feature) (multiPoint : Geometry) :
    Except JsError JsNum :=
  forEach multiPoint.coordinates (multiPointStep T coordinatePoint) JsNum.posInf

/-- `calculateDistanceToLineString` (lines 136-138). -/
def calculateDistanceToLineString (T : Turf) (coordinatePoint : Feature) (lineString : Geometry) :
    Except JsError JsNum :=
  call (T.pointToLineDistance coordinatePoint (GeoJson.geometry lineString))

/-- The callback of the loop of `calculateDistanceToMultiLineString` (lines 149-157). -/
def multiLineStringStep (T : Turf) (coordinatePoint : Feature) (minDist : JsNum)
    (lineCoords : JsVal) : Except JsError JsNum :=
  if lineCoords.isArrayLongerThanOne then do
    let dist ← lineDistance T coordinatePoint lineCoords
    pure (updateMin minDist dist)
  else pure minDist

/-- `calculateDistanceToMultiLineString` (lines 146-160). -/
def calculateDistanceToMultiLineString (T : Turf) (coordinatePoint : Feature)
    (multiLineString : Geometry) : Except JsError JsNum :=
  forEach multiLineString.coordinates (multiLineStringStep T coordinatePoint) JsNum.posInf

/-- The callback of the inner loops over the parts of a MultiLineString boundary
(lines 85-91 and 117-123). -/
def boundaryPartStep (T : Turf) (coordinatePoint : Feature) (minDist : JsNum) (lineCoords : JsVal) :
    Except JsError JsNum := do
  let dist ← lineDistance T coordinatePoint lineCoords
  pure (updateMin minDist dist)

/-- `calculateDistanceToPolygon` (lines 78-96). -/
def calculateDistanceToPolygon (T : Turf) (coordinatePoint : Feature) (polygon : Geometry) :
    Except JsError JsNum := do
  let boundary ← call (T.polygonToLine (GeoJson.geometry polygon))
  match boundary.geometry with
  | none => throw JsError.typeError
  | some boundaryGeometry =>
    if boundaryGeometry.type = "LineString" then
      call (T.pointToLineDistance coordinatePoint (GeoJson.feature boundary))
    else if boundaryGeometry.type = "MultiLineString" then
      forEach boundaryGeometry.coordinates (boundaryPartStep T coordinatePoint) JsNum.posInf
    else
      throw JsError.invalidPolygonBoundary

/-- The callback of the outer loop of `calculateDistanceToMultiPolygon` (lines 107-125). -/
def multiPolygonStep (T : Turf) (coordinatePoint : Feature) (minDist : JsNum)
    (polygonCoords : JsVal) : Except JsError JsNum := do
  let singlePolygon ← call (T.polygon polygonCoords)
  let boundary ← call (T.polygonToLine (GeoJson.feature singlePolygon))
  match boundary.geometry with
  | none => throw JsError.typeError
  | some boundaryGeometry =>
    if boundaryGeometry.type = "LineString" then do
      let dist ← call (T.pointToLineDistance coordinatePoint (GeoJson.feature boundary))
      pure (updateMin minDist dist)
    else if boundaryGeometry.type = "MultiLineString" then
      forEach boundaryGeometry.coordinates (boundaryPartStep T coordinatePoint) minDist
    else
      pure minDist

/-- `calculateDistanceToMultiPolygon` (lines 104-128). -/
def calculateDistanceToMultiPolygon (T : Turf) (coordinatePoint : Feature)
    (multiPolygon : Geometry) : Except JsError JsNum :=
  forEach multiPolygon.coordinates (multiPolygonStep T coordinatePoint) JsNum.posInf

/-- `calculateDistanceToGeometry` (lines 51-70): the `switch` on the type tag. -/
def calculateDistanceToGeometry (T : Turf) (coordinatePoint : Feature) (geometry : Geometry) :
    Except JsError JsNum :=
  let geomType := geometry.type
  if geomType = "Polygon" then calculateDistanceToPolygon T coordinatePoint geometry
  else if geomType = "MultiPolygon" then calculateDistanceToMultiPolygon T coordinatePoint geometry
  else if geomType = "LineString" then calculateDistanceToLineString T coordinatePoint geometry
  else if geomType = "MultiLineString" then
    calculateDistanceToMultiLineString T coordinatePoint geometry
  else if geomType = "Point" then calculateDistanceToPoint T coordinatePoint geometry
  else if geomType = "MultiPoint" then calculateDistanceToMultiPoint T coordinatePoint geometry
  else throw (JsError.unsupportedGeometry geomType)

/-- The containment check of `calculateFeatureDistance` (lines 22-32): `true` when the method
returns at line 27, `false` when control reaches line 34 (type tag of no area geometry, point not
contained, or `booleanPointInPolygon` threw and the `catch` swallowed it). -/
def containmentShortCircuit (T : Turf) (coordinatePoint : Feature) (feature : Feature)
    (geomType : String) : Bool :=
  if geomType = "Polygon" ∨ geomType = "MultiPolygon" then
    match call (T.booleanPointInPolygon coordinatePoint feature) with
    | .ok isContaining => isContaining
    | .error _ => false
  else false

/-- `calculateFeatureDistance` (lines 13-43).  `none` is the returned `null`. -/
def calculateFeatureDistance (T : Turf) (coordinatePoint : Feature) (feature : Feature) :
    Except JsError (Option DistanceResult) :=
  match feature.geometry with
  | none => pure none
  | some geometry =>
    let geomType := geometry.type
    if containmentShortCircuit T coordinatePoint feature geomType then
      pure (some { distance := JsNum.fin 0, isContaining := true })
    else
      match calculateDistanceToGeometry T coordinatePoint geometry with
      | .ok distance => pure (some { distance := distance, isContaining := false })
      | .error _ => pure none

/-! ## The nearest-point method -/

/-- The variables `minDist` / `overallMinDist` and `candidatePoint` of the nearest-point loops. -/
structure Nearest where
  minDist : JsNum
  candidatePoint : Option Feature

/-- The callback of the MultiPoint loop of `getNearestPointOnFeature` (lines 214-222). -/
def nearestPointStep (T : Turf) (coordinatePoint : Feature) (st : Nearest) (pointCoords : JsVal) :
    Except JsError Nearest := do
  let pointFeature ← call (T.point pointCoords)
  let dist ← call (T.distance coordinatePoint pointFeature)
  if dist.lt st.minDist then
    pure { minDist := dist, candidatePoint := some pointFeature }
  else
    pure st

/-- The body of the inner `try` of the MultiLineString loop (lines 242-250). -/
def nearestSegmentTry (T : Turf) (coordinatePoint : Feature) (st : Nearest)
    (lineSegmentCoords : JsVal) : Except JsError Nearest := do
  let lineSegment ← call (T.lineString lineSegmentCoords)
  let pointOnSegment ← call (T.nearestPointOnLine lineSegment coordinatePoint)
  match pointOnSegment with
  | none => pure st
  | some pt =>
    let dist ← call (T.distance coordinatePoint pt)
    if dist.lt st.minDist then
      pure { minDist := dist, candidatePoint := some pt }
    else
      pure st

/-- The callback of the MultiLineString loop (lines 240-254): the inner `try` with its `catch`,
which leaves both variables as they were. -/
def nearestSegmentStep (T : Turf) (coordinatePoint : Feature) (st : Nearest)
    (lineSegmentCoords : JsVal) : Except JsError Nearest :=
  match nearestSegmentTry T coordinatePoint st lineSegmentCoords with
  | .ok st1 => pure st1
  | .error _ => pure st

/-- The variable `lineForNearestPoint` after lines 225-232 (`none` is `null`). -/
def lineForNearestPoint (T : Turf) (feature : Feature) (geomType : String) :
    Except JsError (Option Feature) :=
  if geomType = "Polygon" ∨ geomType = "MultiPolygon" then do
    let line ← call (T.polygonToLine (GeoJson.feature feature))
    pure (some line)
  else if geomType = "LineString" then pure (some feature)
  else if geomType = "MultiLineString" then pure (some feature)
  else pure none

/-- The body of the outer `try` of `getNearestPointOnFeature` (lines 208-258); falling out of the
block reaches `return null` at line 263, which is the result `none`. -/
def nearestPointTry (T : Turf) (coordinatePoint : Feature) (feature : Feature)
    (geometry : Geometry) : Except JsError (Option Feature) :=
  let geomType := geometry.type
  if geomType = "Point" then do
    let pt ← call (T.point geometry.coordinates)
    pure (some pt)
  else if geomType = "MultiPoint" then do
    let st ← forEach geometry.coordinates (nearestPointStep T coordinatePoint)
      { minDist := JsNum.posInf, candidatePoint := none }
    pure st.candidatePoint
  else do
    let line ← lineForNearestPoint T feature geomType
    match line with
    | none => pure none
    | some line =>
      match line.geometry with
      | none => pure none
      | some lineGeometry =>
        if lineGeometry.coordinates.truthy then
          if lineGeometry.type = "LineString" then
            call (T.nearestPointOnLine line coordinatePoint)
          else if lineGeometry.type = "MultiLineString" then do
            let st ← forEach lineGeometry.coordinates (nearestSegmentStep T coordinatePoint)
              { minDist := JsNum.posInf, candidatePoint := none }
            pure st.candidatePoint
          else pure none
        else pure none

/-- `getNearestPointOnFeature` (lines 200-264).  `none` is the returned `null`. -/
def getNearestPointOnFeature (T : Turf) (coordinatePoint : Feature) (feature : Feature) :
    Except JsError (Option Feature) :=
  match feature.geometry with
  | none => pure none
  | some geometry =>
    match nearestPointTry T coordinatePoint feature geometry with
    | .ok result => pure result
    | .error _ => pure none

/-! ## A small planar stand-in for Turf.js, to run the methods on examples -/

/-- The position `[x, y]` with rational coordinates. -/
def position (x y : ℚ) : JsVal := JsVal.arr [JsVal.num (JsNum.fin x), JsVal.num (JsNum.fin y)]

/-- The coordinates of a position value, when it is one. -/
def JsVal.asPosition : JsVal → Option (ℚ × ℚ)
  | JsVal.arr [JsVal.num (JsNum.fin x), JsVal.num (JsNum.fin y)] => some (x, y)
  | _ => none

/-- The point feature with the given coordinates. -/
def pointFeature (x y : ℚ) : Feature := { geometry := some { type := "Point", coordinates := position x y } }

/-- The position of a point feature, when it is one. -/
def Feature.asPosition (f : Feature) : Option (ℚ × ℚ) :=
  match f.geometry with
  | some g => if g.type = "Point" then g.coordinates.asPosition else none
  | none => none

/-- Taxicab distance between two positions. -/
def planarDistance (a b : ℚ × ℚ) : ℚ := |a.1 - b.1| + |a.2 - b.2|

/-- The geometry of a Turf argument. -/
def GeoJson.geom : GeoJson → Option Geometry
  | GeoJson.feature f => f.geometry
  | GeoJson.geometry g => some g

/-- Smallest taxicab distance from `p` to a vertex in the list (none for no vertex). -/
def planarVertexDistance (p : ℚ × ℚ) : List JsVal → Option ℚ
  | [] => none
  | v :: vs =>
    match v.asPosition, planarVertexDistance p vs with
    | some q, some d => some (min (planarDistance p q) d)
    | some q, none => some (planarDistance p q)
    | none, r => r

/-- The rings of a square with a square hole: the exterior ring (0,0)-(4,4) and the hole
(1,1)-(2,2). -/
def holedSquareRings : List JsVal :=
  [JsVal.arr [position 0 0, position 0 4, position 4 4, position 4 0, position 0 0],
   JsVal.arr [position 1 1, position 1 2, position 2 2, position 2 1, position 1 1]]

/-- The square with a square hole, as a Polygon. -/
def holedSquare : Geometry :=
  { type := "Polygon", coordinates := JsVal.arr holedSquareRings }

/-- Whether `p` lies strictly inside the bounding box of the vertices of a ring. -/
def insideBoundingBox (p : ℚ × ℚ) (ring : JsVal) : Bool :=
  match ring with
  | JsVal.arr vs =>
    let ps := vs.filterMap JsVal.asPosition
    ps.any (fun q => decide (q.1 < p.1)) && ps.any (fun q => decide (p.1 < q.1)) &&
      ps.any (fun q => decide (q.2 < p.2)) && ps.any (fun q => decide (p.2 < q.2))
  | _ => false

/-- The check `turf.polygon` makes on each ring, with the message of the error it throws: a ring
has 4 or more positions and its last position equals its first. -/
def linearRingError : JsVal → Option String
  | JsVal.arr vs =>
    if vs.length < 4 then some "Each LinearRing of a Polygon must have 4 or more Positions."
    else if vs.head?.bind JsVal.asPosition = vs.getLast?.bind JsVal.asPosition then none
    else some "First and last Position are not equivalent."
  | _ => some "Each LinearRing of a Polygon must have 4 or more Positions."

/-- A stand-in for Turf.js on the plane: distances are taxicab distances, the distance to a line
is the distance to its nearest vertex, a point is inside a polygon when it is strictly inside the
bounding box of the exterior ring and of no hole, and the boundary of a polygon is its ring (one
ring) or the MultiLineString of its rings; the boundary of a MultiPolygon is a FeatureCollection,
an object without a `geometry` member; `polygon` rejects a ring that is not closed or has fewer
than 4 positions, `lineString` a line of fewer than 2 positions. -/
def planarTurf : Turf where
  booleanPointInPolygon := fun pt poly =>
    match pt.asPosition, poly.geometry with
    | some p, some g =>
      if g.type = "Polygon" then
        match g.coordinates with
        | JsVal.arr (ring :: holes) =>
          .ok (insideBoundingBox p ring && !holes.any (insideBoundingBox p))
        | _ => .ok false
      else if g.type = "MultiPolygon" then
        match g.coordinates with
        | JsVal.arr polys => .ok (polys.any (fun poly =>
            match poly with
            | JsVal.arr (ring :: holes) =>
              insideBoundingBox p ring && !holes.any (insideBoundingBox p)
            | _ => false))
        | _ => .ok false
      else .error "Invalid input to getGeom"
    | _, _ => .error "Invalid input to getCoord"
  polygonToLine := fun poly =>
    match poly.geom with
    | some g =>
      if g.type = "Polygon" then
        match g.coordinates with
        | JsVal.arr [ring] => .ok { geometry := some { type := "LineString", coordinates := ring } }
        | rings => .ok { geometry := some { type := "MultiLineString", coordinates := rings } }
      else if g.type = "MultiPolygon" then .ok { geometry := none }
      else .error "invalid poly"
    | none => .error "invalid poly"
  pointToLineDistance := fun pt line =>
    match pt.asPosition, line.geom with
    | some p, some g =>
      match g.coordinates with
      | JsVal.arr vs =>
        match planarVertexDistance p vs with
        | some d => .ok (JsNum.fin d)
        | none => .error "coordinates must be an array of two or more positions"
      | _ => .error "coordinates must be an Array"
    | _, _ => .error "invalid input"
  distance := fun a b =>
    match a.asPosition, b.asPosition with
    | some p, some q => .ok (JsNum.fin (planarDistance p q))
    | _, _ => .error "coord must be GeoJSON Point or an Array of numbers"
  nearestPointOnLine := fun line pt =>
    match pt.asPosition, line.geometry with
    | some _, some g =>
      match g.coordinates with
      | JsVal.arr (v :: _) => .ok (some { geometry := some { type := "Point", coordinates := v } })
      | _ => .ok none
    | _, _ => .error "invalid input"
  point := fun c =>
    match c.asPosition with
    | some _ => .ok { geometry := some { type := "Point", coordinates := c } }
    | none => .error "coordinates must contain numbers"
  lineString := fun c =>
    if c.isArrayLongerThanOne then .ok { geometry := some { type := "LineString", coordinates := c } }
    else .error "coordinates must be an array of two or more positions"
  polygon := fun c =>
    match c with
    | JsVal.arr rings =>
      match rings.findSome? linearRingError with
      | some message => .error message
      | none => .ok { geometry := some { type := "Polygon", coordinates := c } }
    | _ => .error "coordinates is not iterable"

/-- The unit-free square with corners (0,0) and (2,2), as a Polygon feature with one ring. -/
def squareFeature : Feature :=
  { geometry := some { type := "Polygon", coordinates := JsVal.arr [JsVal.arr
      [position 0 0, position 0 2, position 2 2, position 2 0, position 0 0]] } }

/-- The ring sets of two squares, (0,0)-(2,2) and (3,3)-(4,4): the coordinates of a
MultiPolygon. -/
def twoSquares : List JsVal :=
  [JsVal.arr [JsVal.arr [position 0 0, position 0 2, position 2 2, position 2 0, position 0 0]],
   JsVal.arr [JsVal.arr [position 3 3, position 3 4, position 4 4, position 4 3, position 3 3]]]

/-- The stand-in with a boundary extraction that returns a geometry tagged `Point`, which is
neither a LineString nor a MultiLineString. -/
def pointBoundaryTurf : Turf :=
  { planarTurf with
    polygonToLine := fun _ =>
      .ok { geometry := some { type := "Point", coordinates := position 0 0 } } }

/-- The ring of the square (0,0)-(2,2). -/
def squareRing : JsVal :=
  JsVal.arr [position 0 0, position 0 2, position 2 2, position 2 0, position 0 0]

/-- The ring set of the square (0,0)-(2,2): the coordinates of a Polygon. -/
def squareRings : JsVal :=
  JsVal.arr [JsVal.arr [position 0 0, position 0 2, position 2 2, position 2 0, position 0 0]]

/-- A line of two malformed positions. -/
def malformedLine : JsVal := JsVal.arr [JsVal.undefined, JsVal.undefined]

/-- The MultiPolygon of the two squares. -/
def twoSquaresGeometry : Geometry :=
  { type := "MultiPolygon", coordinates := JsVal.arr twoSquares }

/-- The exterior ring of a frame: the square (0,0)-(4,4), with the midpoints of its sides among
its vertices. -/
def frameExterior : JsVal :=
  JsVal.arr [position 0 0, position 0 2, position 0 4, position 2 4, position 4 4, position 4 2,
    position 4 0, position 2 0, position 0 0]

/-- The hole of the frame: the square (1,1)-(3,3), with the midpoints of its sides among its
vertices. -/
def frameHole : JsVal :=
  JsVal.arr [position 1 1, position 1 2, position 1 3, position 2 3, position 3 3, position 3 2,
    position 3 1, position 2 1, position 1 1]

/-- The frame, a Polygon with one hole; the point (2,2) lies in the hole, outside the polygon,
at distance 1 from the hole ring and 2 from the exterior ring. -/
def framePolygon : Geometry :=
  { type := "Polygon", coordinates := JsVal.arr [frameExterior, frameHole] }

/-- The MultiPoint with the given positions. -/
def multiPointOf (points : List JsVal) : Geometry :=
  { type := "MultiPoint", coordinates := JsVal.arr points }

/-- The line [(3,0),(4,4)]. -/
def sampleLine : JsVal := JsVal.arr [position 3 0, position 4 4]

/-- A ring set whose only ring has 3 positions and is not closed: (0,0), (0,2), (2,0). -/
def openRings : JsVal :=
  JsVal.arr [JsVal.arr [position 0 0, position 0 2, position 2 0]]

/-- A ring of one position, (1,1). -/
def degenerateRing : JsVal := JsVal.arr [position 1 1]

/-- A Polygon with the ring of the square (0,0)-(2,2) and a second ring of one position. -/
def degenerateRingPolygon : Geometry :=
  { type := "Polygon", coordinates := JsVal.arr [squareRing, degenerateRing] }

/-- The MultiLineString made of the line [(3,0),(4,4)] and of the malformed line. -/
def mixedLines : Geometry :=
  { type := "MultiLineString", coordinates := JsVal.arr [sampleLine, malformedLine] }

/-- The MultiPoint [(0,1),(1,0),(5,5)]. -/
def threePoints : Geometry :=
  { type := "MultiPoint", coordinates := JsVal.arr [position 0 1, position 1 0, position 5 5] }

/-- One step of a minimum-reduction, without exceptions: the element `x` contributes the distance
`val x`, or nothing. -/
def minStep (val : JsVal → Option JsNum) (minDist : JsNum) (x : JsVal) : JsNum :=
  match val x with
  | some dist => updateMin minDist dist
  | none => minDist

/-- One step of a nearest-point loop, without exceptions: the element `x` offers the candidate
`cand x` (its distance and its point), or nothing; a candidate is retained when its distance is
`<` the smallest one so far. -/
def candidateStep (cand : JsVal → Option (JsNum × Feature)) (st : Nearest) (x : JsVal) :
    Nearest :=
  match cand x with
  | some (dist, pt) =>
    if dist.lt st.minDist then { minDist := dist, candidatePoint := some pt } else st
  | none => st

/-- The candidate offered by a constituent position of a MultiPoint: the point feature built from
it and its distance to the query point, when both calls succeed. -/
def pointCandidate (T : Turf) (coordinatePoint : Feature) (pointCoords : JsVal) :
    Option (JsNum × Feature) :=
  match T.point pointCoords with
  | .ok pointFeature =>
    match T.distance coordinatePoint pointFeature with
    | .ok dist => some (dist, pointFeature)
    | .error _ => none
  | .error _ => none

/-- The candidate offered by a constituent line in the MultiLineString loop of
`getNearestPointOnFeature`: the point returned by `nearestPointOnLine` and its distance to the
query point, when line construction, `nearestPointOnLine` and `distance` all succeed and a point
is returned; nothing otherwise. -/
def segmentCandidate (T : Turf) (coordinatePoint : Feature) (lineSegmentCoords : JsVal) :
    Option (JsNum × Feature) :=
  match T.lineString lineSegmentCoords with
  | .ok lineSegment =>
    match T.nearestPointOnLine lineSegment coordinatePoint with
    | .ok (some pt) =>
      match T.distance coordinatePoint pt with
      | .ok dist => some (dist, pt)
      | .error _ => none
    | _ => none
  | .error _ => none

/-- An array of fewer than 2 elements: a line of fewer than 2 points. -/
def JsVal.isShortLine : JsVal → Bool
  | JsVal.arr items => decide (items.length < 2)
  | _ => false

/-- The coordinates of a MultiLineString with every line of fewer than 2 points removed. -/
def removeShortLines : JsVal → JsVal
  | JsVal.arr lines => JsVal.arr (lines.filter (fun l => !l.isShortLine))
  | v => v

/-! ## Basic facts about the control flow -/

theorem call_ok_iff {α : Type} (r : Except String α) (a : α) :
    call r = .ok a ↔ r = .ok a := by
  cases r <;> simp [call]

theorem call_error_iff {α : Type} (r : Except String α) (e : JsError) :
    call r = .error e ↔ ∃ m, r = .error m ∧ e = JsError.turf m := by
  cases r with
  | ok a => simp [call]
  | error m =>
    simp only [call, Except.error.injEq]
    constructor
    · intro h
      exact ⟨m, rfl, h.symm⟩
    · rintro ⟨m1, h1, h2⟩
      rw [h2, ← h1]

/-! ## The order of JavaScript numbers -/

theorem JsNum.ne_nan_of_lt {a b : JsNum} (h : a.lt b = true) : a ≠ JsNum.nan := by
  intro ha
  subst ha
  simp [JsNum.lt] at h

theorem JsNum.le_self {a : JsNum} (h : a ≠ JsNum.nan) : a.le a = true := by
  cases a <;> simp [JsNum.le] at *

theorem JsNum.le_of_lt_true {a b : JsNum} (h : a.lt b = true) : a.le b = true := by
  cases a <;> cases b <;> simp [JsNum.lt, JsNum.le] at *
  exact h.le

theorem JsNum.le_of_lt_false {a b : JsNum} (ha : a ≠ JsNum.nan) (hb : b ≠ JsNum.nan)
    (h : b.lt a = false) : a.le b = true := by
  cases a <;> cases b <;> simp [JsNum.lt, JsNum.le] at *
  exact h

theorem JsNum.le_chain {a b c : JsNum} (h1 : a.le b = true) (h2 : b.le c = true) :
    a.le c = true := by
  cases a <;> cases b <;> cases c <;> simp [JsNum.le] at *
  exact h1.trans h2

theorem JsNum.eq_of_le_of_le {a b : JsNum} (h1 : a.le b = true) (h2 : b.le a = true) : a = b := by
  cases a <;> cases b <;> simp [JsNum.le] at *
  exact h1.antisymm h2

theorem JsNum.ne_nan_of_le {a b : JsNum} (h : a.le b = true) : a ≠ JsNum.nan ∧ b ≠ JsNum.nan := by
  cases a <;> cases b <;> simp [JsNum.le] at *

theorem JsNum.posInf_le {a : JsNum} (h : JsNum.posInf.le a = true) : a = JsNum.posInf := by
  cases a <;> simp [JsNum.le] at *

theorem JsNum.le_posInf {a : JsNum} (h : a ≠ JsNum.nan) : a.le JsNum.posInf = true := by
  cases a <;> simp [JsNum.le] at *

theorem updateMin_eq (a d : JsNum) : updateMin a d = a ∨ updateMin a d = d := by
  unfold updateMin
  split
  · exact Or.inr rfl
  · exact Or.inl rfl

theorem updateMin_ne_nan {a : JsNum} (d : JsNum) (ha : a ≠ JsNum.nan) :
    updateMin a d ≠ JsNum.nan := by
  unfold updateMin
  split
  · rename_i h
    exact JsNum.ne_nan_of_lt h
  · exact ha

theorem updateMin_le_left {a : JsNum} (d : JsNum) (ha : a ≠ JsNum.nan) :
    (updateMin a d).le a = true := by
  unfold updateMin
  split
  · rename_i h
    exact JsNum.le_of_lt_true h
  · exact JsNum.le_self ha

theorem updateMin_le_right {a d : JsNum} (ha : a ≠ JsNum.nan) (hd : d ≠ JsNum.nan) :
    (updateMin a d).le d = true := by
  unfold updateMin
  split
  · exact JsNum.le_self hd
  · rename_i h
    exact JsNum.le_of_lt_false ha hd (by simpa using h)

theorem updateMin_posInf_right (s : JsNum) : updateMin s JsNum.posInf = s := by
  cases s <;> simp [updateMin, JsNum.lt]

theorem updateMin_nan_right (s : JsNum) : updateMin s JsNum.nan = s := by
  cases s <;> simp [updateMin, JsNum.lt]

theorem JsNum.lt_chain {a b c : JsNum} (h1 : a.lt b = true) (h2 : b.lt c = true) :
    a.lt c = true := by
  cases a <;> cases b <;> cases c <;> simp [JsNum.lt] at *
  exact h1.trans h2

theorem JsNum.lt_of_lt_of_lt_false {a b c : JsNum} (hc : c ≠ JsNum.nan)
    (h1 : a.lt b = true) (h2 : c.lt b = false) : a.lt c = true := by
  cases a <;> cases b <;> cases c <;> simp [JsNum.lt] at *
  exact lt_of_lt_of_le h1 h2

theorem updateMin_of_lt {s d : JsNum} (h : d.lt s = true) : updateMin s d = d := by
  simp [updateMin, h]

theorem updateMin_of_lt_false {s d : JsNum} (h : d.lt s = false) : updateMin s d = s := by
  simp [updateMin, h]

theorem updateMin_assoc (s : JsNum) {a : JsNum} (d : JsNum) (ha : a ≠ JsNum.nan) :
    updateMin (updateMin s a) d = updateMin s (updateMin a d) := by
  cases h1 : a.lt s with
  | true =>
    rw [updateMin_of_lt h1]
    cases h2 : d.lt a with
    | true => rw [updateMin_of_lt h2, updateMin_of_lt (JsNum.lt_chain h2 h1)]
    | false => rw [updateMin_of_lt_false h2, updateMin_of_lt h1]
  | false =>
    rw [updateMin_of_lt_false h1]
    cases h2 : d.lt a with
    | true => rw [updateMin_of_lt h2]
    | false =>
      rw [updateMin_of_lt_false h2, updateMin_of_lt_false h1]
      cases h3 : d.lt s with
      | false => exact updateMin_of_lt_false h3
      | true =>
        rw [JsNum.lt_of_lt_of_lt_false ha h3 h1] at h2
        exact Bool.noConfusion h2

theorem JsNum.lt_posInf_of_fin (q : ℚ) : (JsNum.fin q).lt JsNum.posInf = true := rfl

theorem updateMin_posInf {d : JsNum} (hd : d ≠ JsNum.nan) : updateMin JsNum.posInf d = d := by
  cases d <;> simp [updateMin, JsNum.lt] at *

theorem bind_ok_iff {α β : Type} (r : Except JsError α) (f : α → Except JsError β) (b : β) :
    (r >>= f) = .ok b ↔ ∃ a, r = .ok a ∧ f a = .ok b := by
  cases r <;> simp [bind, Except.bind]

theorem bind_error_iff {α β : Type} (r : Except JsError α) (f : α → Except JsError β)
    (e : JsError) :
    (r >>= f) = .error e ↔ r = .error e ∨ ∃ a, r = .ok a ∧ f a = .error e := by
  cases r <;> simp [bind, Except.bind]

theorem pointDistance_ok_iff (T : Turf) (p : Feature) (c : JsVal) (d : JsNum) :
    pointDistance T p c = .ok d ↔ ∃ pf, T.point c = .ok pf ∧ T.distance p pf = .ok d := by
  simp [pointDistance, bind_ok_iff, call_ok_iff]

theorem lineDistance_ok_iff (T : Turf) (p : Feature) (c : JsVal) (d : JsNum) :
    lineDistance T p c = .ok d ↔
      ∃ l, T.lineString c = .ok l ∧ T.pointToLineDistance p (GeoJson.feature l) = .ok d := by
  simp [lineDistance, bind_ok_iff, call_ok_iff]

theorem multiPointStep_ok_iff (T : Turf) (p : Feature) (s s1 : JsNum) (x : JsVal) :
    multiPointStep T p s x = .ok s1 ↔ ∃ d, pointDistance T p x = .ok d ∧ s1 = updateMin s d := by
  simp only [multiPointStep, bind_ok_iff, pure, Except.pure, Except.ok.injEq]
  constructor <;> rintro ⟨d, h1, h2⟩ <;> exact ⟨d, h1, h2.symm⟩

theorem boundaryPartStep_ok_iff (T : Turf) (p : Feature) (s s1 : JsNum) (x : JsVal) :
    boundaryPartStep T p s x = .ok s1 ↔
      ∃ d, lineDistance T p x = .ok d ∧ s1 = updateMin s d := by
  simp only [boundaryPartStep, bind_ok_iff, pure, Except.pure, Except.ok.injEq]
  constructor <;> rintro ⟨d, h1, h2⟩ <;> exact ⟨d, h1, h2.symm⟩

theorem multiLineStringStep_ok_iff (T : Turf) (p : Feature) (s s1 : JsNum) (x : JsVal) :
    multiLineStringStep T p s x = .ok s1 ↔
      (x.isArrayLongerThanOne = false ∧ s1 = s) ∨
        (x.isArrayLongerThanOne = true ∧ ∃ d, lineDistance T p x = .ok d ∧ s1 = updateMin s d) := by
  cases h : x.isArrayLongerThanOne
  · simp only [multiLineStringStep, h, pure, Except.pure, Except.ok.injEq]
    simp [eq_comm]
  · have hstep : multiLineStringStep T p s x =
        (lineDistance T p x >>= fun dist => pure (updateMin s dist)) := by
      simp [multiLineStringStep, h]
    rw [hstep, bind_ok_iff]
    simp only [pure, Except.pure, Except.ok.injEq, Bool.true_eq_false, false_and, false_or,
      true_and]
    constructor <;> rintro ⟨d, h1, h2⟩ <;> exact ⟨d, h1, h2.symm⟩

theorem multiPolygonStep_ok_iff (T : Turf) (p : Feature) (s s1 : JsNum) (x : JsVal) :
    multiPolygonStep T p s x = .ok s1 ↔
      ∃ poly b bg, T.polygon x = .ok poly ∧ T.polygonToLine (GeoJson.feature poly) = .ok b ∧
        b.geometry = some bg ∧
        ((bg.type = "LineString" ∧
            ∃ d, T.pointToLineDistance p (GeoJson.feature b) = .ok d ∧ s1 = updateMin s d) ∨
          (bg.type ≠ "LineString" ∧ bg.type = "MultiLineString" ∧
            forEach bg.coordinates (boundaryPartStep T p) s = .ok s1) ∨
          (bg.type ≠ "LineString" ∧ bg.type ≠ "MultiLineString" ∧ s1 = s)) := by
  simp only [multiPolygonStep, bind_ok_iff, call_ok_iff]
  constructor
  · rintro ⟨poly, hpoly, b, hb, h⟩
    cases hbg : b.geometry with
    | none => simp [hbg, throw, throwThe, MonadExceptOf.throw] at h
    | some bg =>
      refine ⟨poly, b, bg, hpoly, hb, hbg, ?_⟩
      simp only [hbg] at h
      by_cases h1 : bg.type = "LineString"
      · simp only [h1, if_true, bind_ok_iff, call_ok_iff] at h
        obtain ⟨d, hd, hs⟩ := h
        simp only [pure, Except.pure, Except.ok.injEq] at hs
        exact Or.inl ⟨h1, d, hd, hs.symm⟩
      · simp only [h1, if_false] at h
        by_cases h2 : bg.type = "MultiLineString"
        · simp only [h2, if_true] at h
          exact Or.inr (Or.inl ⟨h1, h2, h⟩)
        · simp only [h2, if_false, pure, Except.pure, Except.ok.injEq] at h
          exact Or.inr (Or.inr ⟨h1, h2, h.symm⟩)
  · rintro ⟨poly, b, bg, hpoly, hb, hbg, h⟩
    refine ⟨poly, hpoly, b, hb, ?_⟩
    simp only [hbg]
    rcases h with ⟨h1, d, hd, hs⟩ | ⟨h1, h2, h⟩ | ⟨h1, h2, hs⟩
    · simp [h1, bind_ok_iff, call_ok_iff, hd, hs, pure, Except.pure]
    · simp [h1, h2, h]
    · simp [h1, h2, hs, pure, Except.pure]

/-! ## Loops -/

theorem forEachList_eq_foldl {σ : Type} (cb : σ → JsVal → Except JsError σ)
    (step : σ → JsVal → σ) (xs : List JsVal)
    (h : ∀ s, ∀ x ∈ xs, cb s x = .ok (step s x)) (init : σ) :
    forEachList cb init xs = .ok (xs.foldl step init) := by
  induction xs generalizing init with
  | nil => rfl
  | cons x xs ih =>
    have hx := h init x (List.mem_cons_self x xs)
    simp only [forEachList, hx, List.foldl_cons]
    exact ih (fun s y hy => h s y (List.mem_cons_of_mem x hy)) (step init x)

theorem forEachList_error_of_mem {σ : Type} (cb : σ → JsVal → Except JsError σ)
    (xs : List JsVal) (x : JsVal) (hx : x ∈ xs) (hcb : ∀ s, ∃ e, cb s x = .error e) (s : σ) :
    ∃ e, forEachList cb s xs = .error e := by
  induction xs generalizing s with
  | nil => cases hx
  | cons y ys ih =>
    cases hy : cb s y with
    | error e => exact ⟨e, by simp [forEachList, hy]⟩
    | ok s1 =>
      simp only [forEachList, hy]
      rcases List.mem_cons.1 hx with rfl | hmem
      · obtain ⟨e, he⟩ := hcb s
        rw [he] at hy
        exact Except.noConfusion hy
      · exact ih hmem s1

theorem forEachList_append {σ : Type} (cb : σ → JsVal → Except JsError σ)
    (xs ys : List JsVal) (s : σ) :
    forEachList cb s (xs ++ ys) =
      match forEachList cb s xs with
      | .ok s1 => forEachList cb s1 ys
      | .error e => .error e := by
  induction xs generalizing s with
  | nil => simp [forEachList]
  | cons x xs ih =>
    cases hx : cb s x with
    | error e => simp [forEachList, hx]
    | ok s1 => simp [forEachList, hx, ih]

theorem forEachList_skip {σ : Type} (cb : σ → JsVal → Except JsError σ)
    (pre post : List JsVal) (x : JsVal) (hx : ∀ s, cb s x = .ok s) (s : σ) :
    forEachList cb s (pre ++ x :: post) = forEachList cb s (pre ++ post) := by
  rw [forEachList_append, forEachList_append]
  cases forEachList cb s pre with
  | error e => rfl
  | ok s1 => simp [forEachList, hx]

theorem forEachList_error_elim {σ : Type} (cb : σ → JsVal → Except JsError σ)
    (xs : List JsVal) (s : σ) (e : JsError) (h : forEachList cb s xs = .error e) :
    ∃ s1, ∃ x ∈ xs, cb s1 x = .error e := by
  induction xs generalizing s with
  | nil => simp [forEachList] at h
  | cons x xs ih =>
    cases hx : cb s x with
    | error e1 =>
      simp only [forEachList, hx, Except.error.injEq] at h
      exact ⟨s, x, List.mem_cons_self _ _, h ▸ hx⟩
    | ok s1 =>
      simp only [forEachList, hx] at h
      obtain ⟨s2, y, hy, hcb⟩ := ih s1 h
      exact ⟨s2, y, List.mem_cons_of_mem _ hy, hcb⟩

theorem forEachList_invariant {σ : Type} (I : σ → Prop) (cb : σ → JsVal → Except JsError σ)
    (hcb : ∀ s x s1, I s → cb s x = .ok s1 → I s1) (xs : List JsVal) (init r : σ)
    (hinit : I init) (hr : forEachList cb init xs = .ok r) : I r := by
  induction xs generalizing init with
  | nil =>
    simp only [forEachList, Except.ok.injEq] at hr
    exact hr ▸ hinit
  | cons x xs ih =>
    cases hx : cb init x with
    | ok s1 =>
      simp only [forEachList, hx] at hr
      exact ih s1 (hcb init x s1 hinit hx) hr
    | error e => simp [forEachList, hx] at hr

theorem forEachList_reaches {σ : Type} (I J : σ → Prop) (cb : σ → JsVal → Except JsError σ)
    (hI : ∀ s x s1, I s → cb s x = .ok s1 → I s1)
    (hJ : ∀ s x s1, J s → cb s x = .ok s1 → J s1)
    (xs : List JsVal) (x0 : JsVal) (hx0 : x0 ∈ xs)
    (h0 : ∀ s s1, I s → cb s x0 = .ok s1 → J s1)
    (init r : σ) (hinit : I init) (hr : forEachList cb init xs = .ok r) : J r := by
  induction xs generalizing init with
  | nil => cases hx0
  | cons x xs ih =>
    cases hx : cb init x with
    | error e => simp [forEachList, hx] at hr
    | ok s1 =>
      simp only [forEachList, hx] at hr
      rcases List.mem_cons.1 hx0 with rfl | hmem
      · exact forEachList_invariant J cb hJ xs s1 r (h0 init s1 hinit hx) hr
      · exact ih hmem s1 (hI init x s1 hinit hx) hr

theorem foldl_minStep_spec (val : JsVal → Option JsNum) (xs : List JsVal) (init : JsNum)
    (hinit : init ≠ JsNum.nan) (hval : ∀ x ∈ xs, ∀ d, val x = some d → d ≠ JsNum.nan) :
    xs.foldl (minStep val) init ≠ JsNum.nan ∧
      (xs.foldl (minStep val) init).le init = true ∧
      (∀ x ∈ xs, ∀ d, val x = some d → (xs.foldl (minStep val) init).le d = true) ∧
      (xs.foldl (minStep val) init = init ∨
        ∃ x ∈ xs, val x = some (xs.foldl (minStep val) init)) := by
  induction xs generalizing init with
  | nil =>
    refine ⟨hinit, JsNum.le_self hinit, ?_, Or.inl rfl⟩
    intro x hx
    cases hx
  | cons x xs ih =>
    have hval1 : ∀ y ∈ xs, ∀ d, val y = some d → d ≠ JsNum.nan :=
      fun y hy d hd => hval y (List.mem_cons_of_mem x hy) d hd
    have hs : minStep val init x ≠ JsNum.nan := by
      unfold minStep
      split
      · exact updateMin_ne_nan _ hinit
      · exact hinit
    have hle : (minStep val init x).le init = true := by
      unfold minStep
      split
      · exact updateMin_le_left _ hinit
      · exact JsNum.le_self hinit
    obtain ⟨h1, h2, h3, h4⟩ := ih (minStep val init x) hs hval1
    simp only [List.foldl_cons]
    refine ⟨h1, JsNum.le_chain h2 hle, ?_, ?_⟩
    · intro y hy d hd
      rcases List.mem_cons.1 hy with rfl | hy1
      · have hdn := hval y (List.mem_cons_self y xs) d hd
        have : (minStep val init y).le d = true := by
          simp only [minStep, hd]
          exact updateMin_le_right hinit hdn
        exact JsNum.le_chain h2 this
      · exact h3 y hy1 d hd
    · rcases h4 with h4 | ⟨y, hy, hyv⟩
      · cases hv : val x with
        | none =>
          left
          rw [h4]
          simp [minStep, hv]
        | some d =>
          rcases updateMin_eq init d with hu | hu
          · left
            rw [h4]
            simp [minStep, hv, hu]
          · right
            refine ⟨x, List.mem_cons_self x xs, ?_⟩
            rw [h4]
            simp [minStep, hv, hu]
      · exact Or.inr ⟨y, List.mem_cons_of_mem x hy, hyv⟩

theorem toOption_eq_some_iff {α : Type} (r : Except JsError α) (a : α) :
    r.toOption = some a ↔ r = .ok a := by
  cases r <;> simp [Except.toOption]

theorem forEachList_minimum (f : JsVal → Except JsError JsNum)
    (cb : JsNum → JsVal → Except JsError JsNum) (xs : List JsVal)
    (hcb : ∀ s x d, f x = .ok d → cb s x = .ok (updateMin s d))
    (hd : ∀ c ∈ xs, ∃ d, f c = .ok d ∧ d ≠ JsNum.nan) :
    ∃ m, forEachList cb JsNum.posInf xs = .ok m ∧
      (∀ c ∈ xs, ∀ d, f c = .ok d → m.le d = true) ∧
      (xs ≠ [] → ∃ c ∈ xs, f c = .ok m) ∧
      (xs = [] → m = JsNum.posInf) := by
  have hloop : forEachList cb JsNum.posInf xs =
      .ok (xs.foldl (minStep (fun c => (f c).toOption)) JsNum.posInf) := by
    apply forEachList_eq_foldl
    intro s c hcmem
    obtain ⟨d, hd1, _⟩ := hd c hcmem
    simp [hcb s c d hd1, minStep, hd1, Except.toOption]
  have hval : ∀ c ∈ xs, ∀ d, (f c).toOption = some d → d ≠ JsNum.nan := by
    intro c hcmem d hcd
    obtain ⟨d1, h1, h2⟩ := hd c hcmem
    rw [h1] at hcd
    simp only [Except.toOption, Option.some.injEq] at hcd
    exact hcd ▸ h2
  obtain ⟨_, _, h3, h4⟩ := foldl_minStep_spec (fun c => (f c).toOption) xs JsNum.posInf
    (by decide) hval
  refine ⟨_, hloop, ?_, ?_, ?_⟩
  · intro c hcmem d hcd
    exact h3 c hcmem d ((toOption_eq_some_iff _ _).2 hcd)
  · intro hne
    rcases h4 with h4 | ⟨c, hcmem, hcv⟩
    · obtain ⟨c, rest, rfl⟩ := List.exists_cons_of_ne_nil hne
      obtain ⟨d, hd1, _⟩ := hd c (List.mem_cons_self c rest)
      have hle := h3 c (List.mem_cons_self c rest) d ((toOption_eq_some_iff _ _).2 hd1)
      rw [h4] at hle
      refine ⟨c, List.mem_cons_self c rest, ?_⟩
      rw [h4, hd1, JsNum.posInf_le hle]
    · exact ⟨c, hcmem, (toOption_eq_some_iff _ _).1 hcv⟩
  · intro hnil
    subst hnil
    rfl

theorem forEachList_minimum_mem (f : JsVal → Except JsError JsNum)
    (cb : JsNum → JsVal → Except JsError JsNum) (xs : List JsVal)
    (hcb : ∀ s, ∀ x ∈ xs, ∀ d, f x = .ok d → cb s x = .ok (updateMin s d))
    (hd : ∀ c ∈ xs, ∃ d, f c = .ok d ∧ d ≠ JsNum.nan) :
    ∃ m, forEachList cb JsNum.posInf xs = .ok m ∧
      (∀ c ∈ xs, ∀ d, f c = .ok d → m.le d = true) ∧
      (xs ≠ [] → ∃ c ∈ xs, f c = .ok m) ∧
      (xs = [] → m = JsNum.posInf) := by
  have hloop : forEachList cb JsNum.posInf xs =
      .ok (xs.foldl (minStep (fun c => (f c).toOption)) JsNum.posInf) := by
    apply forEachList_eq_foldl
    intro s c hcmem
    obtain ⟨d, hd1, _⟩ := hd c hcmem
    simp [hcb s c hcmem d hd1, minStep, hd1, Except.toOption]
  have hval : ∀ c ∈ xs, ∀ d, (f c).toOption = some d → d ≠ JsNum.nan := by
    intro c hcmem d hcd
    obtain ⟨d1, h1, h2⟩ := hd c hcmem
    rw [h1] at hcd
    simp only [Except.toOption, Option.some.injEq] at hcd
    exact hcd ▸ h2
  obtain ⟨_, _, h3, h4⟩ := foldl_minStep_spec (fun c => (f c).toOption) xs JsNum.posInf
    (by decide) hval
  refine ⟨_, hloop, ?_, ?_, ?_⟩
  · intro c hcmem d hcd
    exact h3 c hcmem d ((toOption_eq_some_iff _ _).2 hcd)
  · intro hne
    rcases h4 with h4 | ⟨c, hcmem, hcv⟩
    · obtain ⟨c, rest, rfl⟩ := List.exists_cons_of_ne_nil hne
      obtain ⟨d, hd1, _⟩ := hd c (List.mem_cons_self c rest)
      have hle := h3 c (List.mem_cons_self c rest) d ((toOption_eq_some_iff _ _).2 hd1)
      rw [h4] at hle
      refine ⟨c, List.mem_cons_self c rest, ?_⟩
      rw [h4, hd1, JsNum.posInf_le hle]
    · exact ⟨c, hcmem, (toOption_eq_some_iff _ _).1 hcv⟩
  · intro hnil
    subst hnil
    rfl

theorem forEachList_boundaryPartStep_shift (T : Turf) (p : Feature) (parts : List JsVal)
    (s a d : JsNum) (ha : a ≠ JsNum.nan)
    (h : forEachList (boundaryPartStep T p) a parts = .ok d) :
    forEachList (boundaryPartStep T p) (updateMin s a) parts = .ok (updateMin s d) := by
  induction parts generalizing a with
  | nil =>
    simp only [forEachList, Except.ok.injEq] at h
    simp [forEachList, h]
  | cons x xs ih =>
    cases hx : boundaryPartStep T p a x with
    | error e => simp [forEachList, hx] at h
    | ok a1 =>
      simp only [forEachList, hx] at h
      obtain ⟨dx, hdx, rfl⟩ := (boundaryPartStep_ok_iff T p a a1 x).1 hx
      have hstep : boundaryPartStep T p (updateMin s a) x =
          .ok (updateMin s (updateMin a dx)) := by
        rw [← updateMin_assoc s dx ha]
        exact (boundaryPartStep_ok_iff T p _ _ x).2 ⟨dx, hdx, rfl⟩
      simp only [forEachList, hstep]
      exact ih (updateMin a dx) (updateMin_ne_nan dx ha) h

theorem forEach_boundaryPartStep_shift (T : Turf) (p : Feature) (v : JsVal) (s d : JsNum)
    (h : forEach v (boundaryPartStep T p) JsNum.posInf = .ok d) :
    forEach v (boundaryPartStep T p) s = .ok (updateMin s d) := by
  cases v with
  | undefined => simp [forEach] at h
  | num n => simp [forEach] at h
  | arr parts =>
    simp only [forEach] at h ⊢
    have := forEachList_boundaryPartStep_shift T p parts s JsNum.posInf d (by decide) h
    rwa [updateMin_posInf_right] at this

theorem multiPolygonStep_shift (T : Turf) (p : Feature) (x : JsVal) (s d : JsNum)
    (h : multiPolygonStep T p JsNum.posInf x = .ok d) :
    multiPolygonStep T p s x = .ok (updateMin s d) := by
  obtain ⟨poly, b, bg, hpoly, hb, hbg, hcase⟩ := (multiPolygonStep_ok_iff T p _ d x).1 h
  refine (multiPolygonStep_ok_iff T p s _ x).2 ⟨poly, b, bg, hpoly, hb, hbg, ?_⟩
  rcases hcase with ⟨h1, dist, hdist, rfl⟩ | ⟨h1, h2, hloop⟩ | ⟨h1, h2, rfl⟩
  · refine Or.inl ⟨h1, dist, hdist, ?_⟩
    rw [← updateMin_assoc s dist (by decide), updateMin_posInf_right]
  · exact Or.inr (Or.inl ⟨h1, h2, forEach_boundaryPartStep_shift T p _ s d hloop⟩)
  · exact Or.inr (Or.inr ⟨h1, h2, updateMin_posInf_right s⟩)

theorem multiPolygonStep_of_polygon (T : Turf) (p : Feature) (x : JsVal) (poly : Feature)
    (d : JsNum) (hpoly : T.polygon x = .ok poly)
    (hsame : T.polygonToLine (GeoJson.feature poly) =
      T.polygonToLine (GeoJson.geometry { type := "Polygon", coordinates := x }))
    (hd : calculateDistanceToPolygon T p { type := "Polygon", coordinates := x } = .ok d)
    (hdn : d ≠ JsNum.nan) :
    multiPolygonStep T p JsNum.posInf x = .ok d := by
  simp only [calculateDistanceToPolygon, bind_ok_iff, call_ok_iff] at hd
  obtain ⟨b, hb, hd⟩ := hd
  cases hbg : b.geometry with
  | none => simp [hbg, throw, throwThe, MonadExceptOf.throw] at hd
  | some bg =>
    simp only [hbg] at hd
    refine (multiPolygonStep_ok_iff T p _ d x).2 ⟨poly, b, bg, hpoly, hsame.trans hb, hbg, ?_⟩
    by_cases h1 : bg.type = "LineString"
    · simp only [h1, if_true, call_ok_iff] at hd
      exact Or.inl ⟨h1, d, hd, (updateMin_posInf hdn).symm⟩
    · simp only [h1, if_false] at hd
      by_cases h2 : bg.type = "MultiLineString"
      · simp only [h2, if_true] at hd
        exact Or.inr (Or.inl ⟨h1, h2, hd⟩)
      · simp [h2, throw, throwThe, MonadExceptOf.throw] at hd

theorem containmentShortCircuit_eq_true_iff (T : Turf) (p feature : Feature) (geomType : String) :
    containmentShortCircuit T p feature geomType = true ↔
      (geomType = "Polygon" ∨ geomType = "MultiPolygon") ∧
        T.booleanPointInPolygon p feature = .ok true := by
  unfold containmentShortCircuit
  split
  · rename_i h
    cases hb : T.booleanPointInPolygon p feature with
    | ok b => simp [call, h]
    | error m => simp [call]
  · rename_i h
    simp [h]

/-! ## The dispatch on the type tag -/

theorem calculateDistanceToGeometry_polygon (T : Turf) (p : Feature) (g : Geometry)
    (ht : g.type = "Polygon") :
    calculateDistanceToGeometry T p g = calculateDistanceToPolygon T p g := by
  simp [calculateDistanceToGeometry, ht]

theorem calculateDistanceToGeometry_multiPolygon (T : Turf) (p : Feature) (g : Geometry)
    (ht : g.type = "MultiPolygon") :
    calculateDistanceToGeometry T p g = calculateDistanceToMultiPolygon T p g := by
  simp [calculateDistanceToGeometry, ht]

theorem calculateDistanceToGeometry_lineString (T : Turf) (p : Feature) (g : Geometry)
    (ht : g.type = "LineString") :
    calculateDistanceToGeometry T p g =
      call (T.pointToLineDistance p (GeoJson.geometry g)) := by
  simp [calculateDistanceToGeometry, calculateDistanceToLineString, ht]

theorem calculateDistanceToGeometry_multiLineString (T : Turf) (p : Feature) (g : Geometry)
    (ht : g.type = "MultiLineString") :
    calculateDistanceToGeometry T p g = calculateDistanceToMultiLineString T p g := by
  simp [calculateDistanceToGeometry, ht]

theorem calculateDistanceToGeometry_point (T : Turf) (p : Feature) (g : Geometry)
    (ht : g.type = "Point") :
    calculateDistanceToGeometry T p g = pointDistance T p g.coordinates := by
  simp [calculateDistanceToGeometry, calculateDistanceToPoint, ht]

theorem calculateDistanceToGeometry_multiPoint_eq (T : Turf) (p : Feature) (g : Geometry)
    (ht : g.type = "MultiPoint") :
    calculateDistanceToGeometry T p g = calculateDistanceToMultiPoint T p g := by
  simp [calculateDistanceToGeometry, ht]

theorem calculateFeatureDistance_of_shortCircuit (T : Turf) (p feature : Feature) (g : Geometry)
    (hg : feature.geometry = some g)
    (hs : containmentShortCircuit T p feature g.type = true) :
    calculateFeatureDistance T p feature =
      .ok (some { distance := JsNum.fin 0, isContaining := true }) := by
  simp [calculateFeatureDistance, hg, hs, pure, Except.pure]

theorem calculateFeatureDistance_of_distance (T : Turf) (p feature : Feature) (g : Geometry)
    (d : JsNum) (hg : feature.geometry = some g)
    (hs : containmentShortCircuit T p feature g.type = false)
    (hd : calculateDistanceToGeometry T p g = .ok d) :
    calculateFeatureDistance T p feature =
      .ok (some { distance := d, isContaining := false }) := by
  simp [calculateFeatureDistance, hg, hs, hd, pure, Except.pure]

theorem calculateFeatureDistance_of_error (T : Turf) (p feature : Feature) (g : Geometry)
    (e : JsError) (hg : feature.geometry = some g)
    (hs : containmentShortCircuit T p feature g.type = false)
    (hd : calculateDistanceToGeometry T p g = .error e) :
    calculateFeatureDistance T p feature = .ok none := by
  simp [calculateFeatureDistance, hg, hs, hd, pure, Except.pure]

/-! ## The feature-level distance operation -/

/-- C1: containment short-circuit.  For every query point and every feature whose geometry is
tagged Polygon or MultiPolygon, if `booleanPointInPolygon` returns true then
`calculateFeatureDistance` returns exactly `{distance: 0, isContaining: true}`, whatever the
other Turf functions (boundary extraction, line distance) would return or throw. -/
theorem calculateFeatureDistance_contained (T : Turf) (coordinatePoint feature : Feature)
    (g : Geometry) (hg : feature.geometry = some g)
    (ht : g.type = "Polygon" ∨ g.type = "MultiPolygon")
    (hc : T.booleanPointInPolygon coordinatePoint feature = .ok true) :
    calculateFeatureDistance T coordinatePoint feature =
      .ok (some { distance := JsNum.fin 0, isContaining := true }) := by
  have hs : containmentShortCircuit T coordinatePoint feature g.type = true :=
    (containmentShortCircuit_eq_true_iff T coordinatePoint feature g.type).2 ⟨ht, hc⟩
  simp [calculateFeatureDistance, hg, hs, pure, Except.pure]

theorem planarTurf_inside_square :
    planarTurf.booleanPointInPolygon (pointFeature 1 1) squareFeature = .ok true := by
  simp [planarTurf, pointFeature, squareFeature, position, Feature.asPosition, JsVal.asPosition,
    insideBoundingBox]

/-- C1 at the point (1,1) inside the square, with a Turf whose boundary extraction and line
distance always throw. -/
theorem calculateFeatureDistance_contained_witness :
    calculateFeatureDistance
        { planarTurf with
          polygonToLine := fun _ => .error "fails"
          pointToLineDistance := fun _ _ => .error "fails" }
        (pointFeature 1 1) squareFeature =
      .ok (some { distance := JsNum.fin 0, isContaining := true }) :=
  calculateFeatureDistance_contained _ (pointFeature 1 1) squareFeature
    { type := "Polygon", coordinates := JsVal.arr [JsVal.arr
      [position 0 0, position 0 2, position 2 2, position 2 0, position 0 0]] }
    rfl (Or.inl rfl) planarTurf_inside_square

/-- C2: `calculateFeatureDistance` returns `null` exactly when the feature has no geometry, or
the containment short-circuit did not fire and `calculateDistanceToGeometry` throws on the
geometry; in every other case without short-circuit it returns `{distance: d, isContaining:
false}` with `d` the value of `calculateDistanceToGeometry` for the same point and geometry. -/
theorem calculateFeatureDistance_absent_iff (T : Turf) (coordinatePoint feature : Feature) :
    (calculateFeatureDistance T coordinatePoint feature = .ok none ↔
      (feature.geometry = none ∨
        ∃ g, feature.geometry = some g ∧
          ¬ ((g.type = "Polygon" ∨ g.type = "MultiPolygon") ∧
              T.booleanPointInPolygon coordinatePoint feature = .ok true) ∧
          ∃ e, calculateDistanceToGeometry T coordinatePoint g = .error e)) ∧
    (∀ g d, feature.geometry = some g →
      ¬ ((g.type = "Polygon" ∨ g.type = "MultiPolygon") ∧
          T.booleanPointInPolygon coordinatePoint feature = .ok true) →
      calculateDistanceToGeometry T coordinatePoint g = .ok d →
      calculateFeatureDistance T coordinatePoint feature =
        .ok (some { distance := d, isContaining := false })) := by
  constructor
  · cases hg : feature.geometry with
    | none => simp [calculateFeatureDistance, hg, pure, Except.pure]
    | some g =>
      have hiff := containmentShortCircuit_eq_true_iff T coordinatePoint feature g.type
      cases hs : containmentShortCircuit T coordinatePoint feature g.type with
      | true =>
        have hfire := hiff.1 hs
        constructor
        · intro h
          simp [calculateFeatureDistance, hg, hs, pure, Except.pure] at h
        · rintro (h | ⟨g1, h1, h2, _⟩)
          · simp at h
          · cases h1
            exact absurd hfire h2
      | false =>
        have hnot : ¬ ((g.type = "Polygon" ∨ g.type = "MultiPolygon") ∧
            T.booleanPointInPolygon coordinatePoint feature = .ok true) := by
          intro h
          rw [hiff.2 h] at hs
          exact Bool.noConfusion hs
        cases hd : calculateDistanceToGeometry T coordinatePoint g with
        | ok d => simp [calculateFeatureDistance, hg, hs, hd, pure, Except.pure]
        | error e =>
          simp only [calculateFeatureDistance, hg, hs, hd, pure, Except.pure]
          simp only [Bool.false_eq_true, if_false, true_iff]
          exact Or.inr ⟨g, rfl, hnot, e, hd⟩
  · intro g d hg hnot hd
    have hs : containmentShortCircuit T coordinatePoint feature g.type = false := by
      cases hs : containmentShortCircuit T coordinatePoint feature g.type with
      | false => rfl
      | true =>
        exact absurd ((containmentShortCircuit_eq_true_iff T coordinatePoint feature g.type).1 hs)
          hnot
    simp [calculateFeatureDistance, hg, hs, hd, pure, Except.pure]

/-- C3: for a geometry whose type tag is none of the six supported ones,
`calculateDistanceToGeometry` throws the unsupported-geometry error, and
`calculateFeatureDistance` on a feature carrying that geometry returns `null` without throwing. -/
theorem unsupported_geometry_type (T : Turf) (coordinatePoint feature : Feature) (g : Geometry)
    (hg : feature.geometry = some g)
    (h1 : g.type ≠ "Point") (h2 : g.type ≠ "MultiPoint") (h3 : g.type ≠ "LineString")
    (h4 : g.type ≠ "MultiLineString") (h5 : g.type ≠ "Polygon") (h6 : g.type ≠ "MultiPolygon") :
    calculateDistanceToGeometry T coordinatePoint g =
        .error (JsError.unsupportedGeometry g.type) ∧
      calculateFeatureDistance T coordinatePoint feature = .ok none := by
  have hd : calculateDistanceToGeometry T coordinatePoint g =
      .error (JsError.unsupportedGeometry g.type) := by
    simp [calculateDistanceToGeometry, h1, h2, h3, h4, h5, h6, throw, throwThe,
      MonadExceptOf.throw]
  refine ⟨hd, ?_⟩
  have hs : containmentShortCircuit T coordinatePoint feature g.type = false := by
    simp [containmentShortCircuit, h5, h6]
  simp [calculateFeatureDistance, hg, hs, hd, pure, Except.pure]

/-- C3 at a GeometryCollection. -/
theorem unsupported_geometry_type_witness :
    calculateDistanceToGeometry planarTurf (pointFeature 0 0)
        { type := "GeometryCollection", coordinates := JsVal.undefined } =
        .error (JsError.unsupportedGeometry "GeometryCollection") ∧
      calculateFeatureDistance planarTurf (pointFeature 0 0)
        { geometry := some { type := "GeometryCollection", coordinates := JsVal.undefined } } =
        .ok none :=
  unsupported_geometry_type planarTurf (pointFeature 0 0)
    { geometry := some { type := "GeometryCollection", coordinates := JsVal.undefined } }
    { type := "GeometryCollection", coordinates := JsVal.undefined } rfl
    (by decide) (by decide) (by decide) (by decide) (by decide) (by decide)

/-- C4: no exception leaves the two feature-level operations.  For every query point, every
feature (with or without geometry, of any type tag and any coordinates) and every behaviour of
the Turf functions (each may throw on any call), `calculateFeatureDistance` and
`getNearestPointOnFeature` both return a value or `null`; neither throws. -/
theorem feature_operations_never_throw (T : Turf) (coordinatePoint feature : Feature) :
    (∃ r, calculateFeatureDistance T coordinatePoint feature = .ok r) ∧
      (∃ r, getNearestPointOnFeature T coordinatePoint feature = .ok r) := by
  constructor
  · unfold calculateFeatureDistance
    cases feature.geometry with
    | none => exact ⟨none, rfl⟩
    | some g =>
      simp only
      split
      · exact ⟨_, rfl⟩
      · cases calculateDistanceToGeometry T coordinatePoint g with
        | ok d => exact ⟨_, rfl⟩
        | error e => exact ⟨_, rfl⟩
  · unfold getNearestPointOnFeature
    cases feature.geometry with
    | none => exact ⟨none, rfl⟩
    | some g =>
      simp only
      cases nearestPointTry T coordinatePoint feature g with
      | ok r => exact ⟨_, rfl⟩
      | error e => exact ⟨_, rfl⟩

theorem calculateDistanceToGeometry_booleanPointInPolygon (T : Turf)
    (bp : Feature → Feature → Except String Bool) (coordinatePoint : Feature) (g : Geometry) :
    calculateDistanceToGeometry { T with booleanPointInPolygon := bp } coordinatePoint g =
      calculateDistanceToGeometry T coordinatePoint g := rfl

/-- C5: a failure of `booleanPointInPolygon` is treated as "not contained".  For a Polygon or
MultiPolygon feature, the result of `calculateFeatureDistance` when the containment function
throws is identical to its result when the containment function returns false, the other Turf
functions being the same. -/
theorem containment_failure_as_not_contained (T : Turf) (coordinatePoint feature : Feature)
    (g : Geometry) (bpFail bpFalse : Feature → Feature → Except String Bool) (m : String)
    (hg : feature.geometry = some g) (ht : g.type = "Polygon" ∨ g.type = "MultiPolygon")
    (hfail : bpFail coordinatePoint feature = .error m)
    (hfalse : bpFalse coordinatePoint feature = .ok false) :
    calculateFeatureDistance { T with booleanPointInPolygon := bpFail } coordinatePoint feature =
      calculateFeatureDistance { T with booleanPointInPolygon := bpFalse } coordinatePoint
        feature := by
  have h1 : containmentShortCircuit { T with booleanPointInPolygon := bpFail } coordinatePoint
      feature g.type = false := by
    simp [containmentShortCircuit, ht, hfail, call]
  have h2 : containmentShortCircuit { T with booleanPointInPolygon := bpFalse } coordinatePoint
      feature g.type = false := by
    simp [containmentShortCircuit, ht, hfalse, call]
  simp only [calculateFeatureDistance, hg, h1, h2,
    calculateDistanceToGeometry_booleanPointInPolygon]

/-- C5 at the point (5,0) outside the square: with a containment function that throws and with
one that returns false the result is the same measured distance. -/
theorem containment_failure_as_not_contained_witness :
    calculateFeatureDistance
        { planarTurf with booleanPointInPolygon := fun _ _ => .error "fails" }
        (pointFeature 5 0) squareFeature =
      calculateFeatureDistance
        { planarTurf with booleanPointInPolygon := fun _ _ => .ok false }
        (pointFeature 5 0) squareFeature :=
  containment_failure_as_not_contained planarTurf (pointFeature 5 0) squareFeature
    { type := "Polygon", coordinates := JsVal.arr [JsVal.arr
      [position 0 0, position 0 2, position 2 2, position 2 0, position 0 0]] }
    (fun _ _ => .error "fails") (fun _ _ => .ok false) "fails" rfl (Or.inl rfl) rfl rfl

/-- C6: the DistanceResult invariant.  Whenever `calculateFeatureDistance` returns a result with
`isContaining` true, its distance is exactly 0, the geometry is tagged Polygon or MultiPolygon,
and `booleanPointInPolygon` returned true for the point and the feature. -/
theorem isContaining_implies_distance_zero (T : Turf) (coordinatePoint feature : Feature)
    (r : DistanceResult)
    (hr : calculateFeatureDistance T coordinatePoint feature = .ok (some r))
    (hc : r.isContaining = true) :
    r.distance = JsNum.fin 0 ∧
      ∃ g, feature.geometry = some g ∧ (g.type = "Polygon" ∨ g.type = "MultiPolygon") ∧
        T.booleanPointInPolygon coordinatePoint feature = .ok true := by
  cases hg : feature.geometry with
  | none => simp [calculateFeatureDistance, hg, pure, Except.pure] at hr
  | some g =>
    cases hs : containmentShortCircuit T coordinatePoint feature g.type with
    | true =>
      have hfire := (containmentShortCircuit_eq_true_iff T coordinatePoint feature g.type).1 hs
      simp [calculateFeatureDistance, hg, hs, pure, Except.pure] at hr
      subst hr
      exact ⟨rfl, g, rfl, hfire⟩
    | false =>
      cases hd : calculateDistanceToGeometry T coordinatePoint g with
      | ok d =>
        simp [calculateFeatureDistance, hg, hs, hd, pure, Except.pure] at hr
        subst hr
        simp at hc
      | error e => simp [calculateFeatureDistance, hg, hs, hd, pure, Except.pure] at hr

/-- C6 at the point (1,1) inside the square. -/
theorem isContaining_implies_distance_zero_witness :
    (JsNum.fin 0 = JsNum.fin 0) ∧
      ∃ g, squareFeature.geometry = some g ∧ (g.type = "Polygon" ∨ g.type = "MultiPolygon") ∧
        planarTurf.booleanPointInPolygon (pointFeature 1 1) squareFeature = .ok true :=
  isContaining_implies_distance_zero planarTurf (pointFeature 1 1) squareFeature
    { distance := JsNum.fin 0, isContaining := true }
    (calculateFeatureDistance_of_shortCircuit planarTurf (pointFeature 1 1) squareFeature
      { type := "Polygon", coordinates := JsVal.arr [JsVal.arr
        [position 0 0, position 0 2, position 2 2, position 2 0, position 0 0]] } rfl
      ((containmentShortCircuit_eq_true_iff planarTurf (pointFeature 1 1) squareFeature
        "Polygon").2 ⟨Or.inl rfl, planarTurf_inside_square⟩))
    rfl

/-! ## Minimum-reduction over the parts of a geometry -/

/-- C8: MultiPoint minimum-reduction.  For a MultiPoint whose point-to-point distances are all
numbers, `calculateDistanceToGeometry` returns a value that is `<=` the distance from the query
point to every constituent point and, when the MultiPoint is not empty, equal to the distance to
at least one of them; for an empty MultiPoint it returns `Infinity`. -/
theorem multiPoint_minimum (T : Turf) (coordinatePoint : Feature) (g : Geometry)
    (points : List JsVal) (ht : g.type = "MultiPoint") (hc : g.coordinates = JsVal.arr points)
    (hd : ∀ c ∈ points, ∃ d, pointDistance T coordinatePoint c = .ok d ∧ d ≠ JsNum.nan) :
    ∃ m, calculateDistanceToGeometry T coordinatePoint g = .ok m ∧
      (∀ c ∈ points, ∀ d, pointDistance T coordinatePoint c = .ok d → m.le d = true) ∧
      (points ≠ [] → ∃ c ∈ points, pointDistance T coordinatePoint c = .ok m) ∧
      (points = [] → m = JsNum.posInf) := by
  rw [calculateDistanceToGeometry_multiPoint_eq T coordinatePoint g ht]
  simp only [calculateDistanceToMultiPoint, hc, forEach]
  exact forEachList_minimum (pointDistance T coordinatePoint) _ points
    (fun s x d hx => (multiPointStep_ok_iff T coordinatePoint s _ x).2 ⟨d, hx, rfl⟩) hd

/-- C8 at the query point (0,0) and the MultiPoint [(0,1),(1,0),(5,5)]. -/
theorem multiPoint_minimum_witness :
    ∃ m, calculateDistanceToGeometry planarTurf (pointFeature 0 0)
        { type := "MultiPoint",
          coordinates := JsVal.arr [position 0 1, position 1 0, position 5 5] } = .ok m ∧
      (∀ c ∈ [position 0 1, position 1 0, position 5 5], ∀ d,
        pointDistance planarTurf (pointFeature 0 0) c = .ok d → m.le d = true) ∧
      ([position 0 1, position 1 0, position 5 5] ≠ [] →
        ∃ c ∈ [position 0 1, position 1 0, position 5 5],
          pointDistance planarTurf (pointFeature 0 0) c = .ok m) ∧
      ([position 0 1, position 1 0, position 5 5] = [] → m = JsNum.posInf) :=
  multiPoint_minimum planarTurf (pointFeature 0 0)
    { type := "MultiPoint", coordinates := JsVal.arr [position 0 1, position 1 0, position 5 5] }
    [position 0 1, position 1 0, position 5 5] rfl rfl
    (by
      intro c hcmem
      simp only [List.mem_cons, List.mem_singleton, List.not_mem_nil, or_false] at hcmem
      rcases hcmem with rfl | rfl | rfl <;>
        simp [pointDistance, planarTurf, call, pointFeature, position, Feature.asPosition,
          JsVal.asPosition, bind, Except.bind])

/-! ## The range of the returned distance -/

theorem updateMin_nonneg {s d : JsNum} (hs : s.IsNonNegFinite ∨ s = JsNum.posInf)
    (hd : d.IsNonNegFinite) : (updateMin s d).IsNonNegFinite := by
  rcases updateMin_eq s d with h | h
  · rcases hs with hs | hs
    · rw [h]
      exact hs
    · obtain ⟨q, rfl, _⟩ := hd
      subst hs
      simp [updateMin, JsNum.lt] at h
  · rw [h]
    exact hd

theorem pointDistance_nonneg (T : Turf) (p : Feature)
    (hpp : ∀ a b x, T.distance a b = .ok x → x.IsNonNegFinite) (c : JsVal) (d : JsNum)
    (h : pointDistance T p c = .ok d) : d.IsNonNegFinite := by
  obtain ⟨pf, _, h2⟩ := (pointDistance_ok_iff T p c d).1 h
  exact hpp p pf d h2

theorem lineDistance_nonneg (T : Turf) (p : Feature)
    (hpl : ∀ a l x, T.pointToLineDistance a l = .ok x → x.IsNonNegFinite) (c : JsVal)
    (d : JsNum) (h : lineDistance T p c = .ok d) : d.IsNonNegFinite := by
  obtain ⟨l, _, h2⟩ := (lineDistance_ok_iff T p c d).1 h
  exact hpl p _ d h2

theorem multiPointStep_nonneg (T : Turf) (p : Feature)
    (hpp : ∀ a b x, T.distance a b = .ok x → x.IsNonNegFinite) (s : JsNum) (x : JsVal)
    (s1 : JsNum) (hs : s.IsNonNegFinite ∨ s = JsNum.posInf)
    (h : multiPointStep T p s x = .ok s1) : s1.IsNonNegFinite := by
  obtain ⟨d, hd, rfl⟩ := (multiPointStep_ok_iff T p s s1 x).1 h
  exact updateMin_nonneg hs (pointDistance_nonneg T p hpp x d hd)

theorem boundaryPartStep_nonneg (T : Turf) (p : Feature)
    (hpl : ∀ a l x, T.pointToLineDistance a l = .ok x → x.IsNonNegFinite) (s : JsNum)
    (x : JsVal) (s1 : JsNum) (hs : s.IsNonNegFinite ∨ s = JsNum.posInf)
    (h : boundaryPartStep T p s x = .ok s1) : s1.IsNonNegFinite := by
  obtain ⟨d, hd, rfl⟩ := (boundaryPartStep_ok_iff T p s s1 x).1 h
  exact updateMin_nonneg hs (lineDistance_nonneg T p hpl x d hd)

theorem multiLineStringStep_range (T : Turf) (p : Feature)
    (hpl : ∀ a l x, T.pointToLineDistance a l = .ok x → x.IsNonNegFinite) (s : JsNum)
    (x : JsVal) (s1 : JsNum) (h : multiLineStringStep T p s x = .ok s1) :
    (x.isArrayLongerThanOne = false ∧ s1 = s) ∨
      (x.isArrayLongerThanOne = true ∧
        ((s.IsNonNegFinite ∨ s = JsNum.posInf) → s1.IsNonNegFinite)) := by
  rcases (multiLineStringStep_ok_iff T p s s1 x).1 h with ⟨h1, h2⟩ | ⟨h1, d, hd, rfl⟩
  · exact Or.inl ⟨h1, h2⟩
  · exact Or.inr ⟨h1, fun hs => updateMin_nonneg hs (lineDistance_nonneg T p hpl x d hd)⟩

theorem forEach_boundaryPartStep_range (T : Turf) (p : Feature)
    (hpl : ∀ a l x, T.pointToLineDistance a l = .ok x → x.IsNonNegFinite) (v : JsVal)
    (s s1 : JsNum) (h : forEach v (boundaryPartStep T p) s = .ok s1) :
    ((s.IsNonNegFinite ∨ s = JsNum.posInf) → (s1.IsNonNegFinite ∨ s1 = JsNum.posInf)) ∧
      (s.IsNonNegFinite → s1.IsNonNegFinite) ∧
      ((s.IsNonNegFinite ∨ s = JsNum.posInf) → (∃ c cs, v = JsVal.arr (c :: cs)) →
        s1.IsNonNegFinite) := by
  cases v with
  | undefined => simp [forEach] at h
  | num x => simp [forEach] at h
  | arr parts =>
    simp only [forEach] at h
    refine ⟨fun hs => ?_, fun hs => ?_, fun hs hne => ?_⟩
    · exact forEachList_invariant (fun s => s.IsNonNegFinite ∨ s = JsNum.posInf) _
        (fun s x s1 hs hstep => Or.inl (boundaryPartStep_nonneg T p hpl s x s1 hs hstep))
        parts s s1 hs h
    · exact forEachList_invariant (fun s => s.IsNonNegFinite) _
        (fun s x s1 hs hstep => boundaryPartStep_nonneg T p hpl s x s1 (Or.inl hs) hstep)
        parts s s1 hs h
    · obtain ⟨c, cs, hc⟩ := hne
      simp only [JsVal.arr.injEq] at hc
      subst hc
      exact forEachList_reaches (fun s => s.IsNonNegFinite ∨ s = JsNum.posInf)
        (fun s => s.IsNonNegFinite) _
        (fun s x s1 hs hstep => Or.inl (boundaryPartStep_nonneg T p hpl s x s1 hs hstep))
        (fun s x s1 hs hstep => boundaryPartStep_nonneg T p hpl s x s1 (Or.inl hs) hstep)
        (c :: cs) c (List.mem_cons_self c cs)
        (fun s s1 hs hstep => boundaryPartStep_nonneg T p hpl s c s1 hs hstep) s s1 hs h

theorem multiPolygonStep_range (T : Turf) (p : Feature)
    (hpl : ∀ a l x, T.pointToLineDistance a l = .ok x → x.IsNonNegFinite) (s : JsNum)
    (x : JsVal) (s1 : JsNum) (h : multiPolygonStep T p s x = .ok s1) :
    ((s.IsNonNegFinite ∨ s = JsNum.posInf) → (s1.IsNonNegFinite ∨ s1 = JsNum.posInf)) ∧
      (s.IsNonNegFinite → s1.IsNonNegFinite) ∧
      ((s.IsNonNegFinite ∨ s = JsNum.posInf) →
        (∀ poly b, T.polygon x = .ok poly → T.polygonToLine (GeoJson.feature poly) = .ok b →
          ∃ bg, b.geometry = some bg ∧ (bg.type = "LineString" ∨
            (bg.type = "MultiLineString" ∧ ∃ c cs, bg.coordinates = JsVal.arr (c :: cs)))) →
        s1.IsNonNegFinite) := by
  obtain ⟨poly, b, bg, hpoly, hb, hbg, hcase⟩ := (multiPolygonStep_ok_iff T p s s1 x).1 h
  rcases hcase with ⟨_, d, hd, rfl⟩ | ⟨h1, _, hloop⟩ | ⟨h1, h2, rfl⟩
  · have hdn := hpl p _ d hd
    exact ⟨fun hs => Or.inl (updateMin_nonneg hs hdn),
      fun hs => updateMin_nonneg (Or.inl hs) hdn, fun hs _ => updateMin_nonneg hs hdn⟩
  · obtain ⟨r1, r2, r3⟩ := forEach_boundaryPartStep_range T p hpl bg.coordinates s s1 hloop
    refine ⟨r1, r2, fun hs hb1 => ?_⟩
    obtain ⟨bg1, hbg1, hc⟩ := hb1 poly b hpoly hb
    rw [hbg] at hbg1
    cases hbg1
    rcases hc with hc | ⟨_, hc⟩
    · exact absurd hc h1
    · exact r3 hs hc
  · refine ⟨fun hs => hs, fun hs => hs, fun _ hb1 => ?_⟩
    obtain ⟨bg1, hbg1, hc⟩ := hb1 poly b hpoly hb
    rw [hbg] at hbg1
    cases hbg1
    rcases hc with hc | ⟨hc, _⟩
    · exact absurd hc h1
    · exact absurd hc h2

theorem calculateDistanceToMultiPoint_range (T : Turf) (p : Feature)
    (hpp : ∀ a b x, T.distance a b = .ok x → x.IsNonNegFinite) (g : Geometry) (d : JsNum)
    (h : calculateDistanceToMultiPoint T p g = .ok d) :
    (d.IsNonNegFinite ∨ d = JsNum.posInf) ∧
      ((∃ c cs, g.coordinates = JsVal.arr (c :: cs)) → d.IsNonNegFinite) := by
  unfold calculateDistanceToMultiPoint at h
  cases hc : g.coordinates with
  | undefined => simp [hc, forEach] at h
  | num x => simp [hc, forEach] at h
  | arr points =>
    simp only [hc, forEach] at h
    constructor
    · exact forEachList_invariant (fun s => s.IsNonNegFinite ∨ s = JsNum.posInf) _
        (fun s x s1 hs hstep => Or.inl (multiPointStep_nonneg T p hpp s x s1 hs hstep))
        points _ d (Or.inr rfl) h
    · rintro ⟨c, cs, hcs⟩
      simp only [JsVal.arr.injEq] at hcs
      subst hcs
      exact forEachList_reaches (fun s => s.IsNonNegFinite ∨ s = JsNum.posInf)
        (fun s => s.IsNonNegFinite) _
        (fun s x s1 hs hstep => Or.inl (multiPointStep_nonneg T p hpp s x s1 hs hstep))
        (fun s x s1 hs hstep => multiPointStep_nonneg T p hpp s x s1 (Or.inl hs) hstep)
        (c :: cs) c (List.mem_cons_self c cs)
        (fun s s1 hs hstep => multiPointStep_nonneg T p hpp s c s1 hs hstep) _ d (Or.inr rfl) h

theorem calculateDistanceToMultiLineString_range (T : Turf) (p : Feature)
    (hpl : ∀ a l x, T.pointToLineDistance a l = .ok x → x.IsNonNegFinite) (g : Geometry)
    (d : JsNum) (h : calculateDistanceToMultiLineString T p g = .ok d) :
    (d.IsNonNegFinite ∨ d = JsNum.posInf) ∧
      ((∃ ls l, g.coordinates = JsVal.arr ls ∧ l ∈ ls ∧ l.isArrayLongerThanOne = true) →
        d.IsNonNegFinite) := by
  unfold calculateDistanceToMultiLineString at h
  have hI : ∀ s x s1, (s.IsNonNegFinite ∨ s = JsNum.posInf) →
      multiLineStringStep T p s x = .ok s1 → (s1.IsNonNegFinite ∨ s1 = JsNum.posInf) := by
    intro s x s1 hs hstep
    rcases multiLineStringStep_range T p hpl s x s1 hstep with ⟨_, rfl⟩ | ⟨_, h2⟩
    · exact hs
    · exact Or.inl (h2 hs)
  have hJ : ∀ s x s1, s.IsNonNegFinite →
      multiLineStringStep T p s x = .ok s1 → s1.IsNonNegFinite := by
    intro s x s1 hs hstep
    rcases multiLineStringStep_range T p hpl s x s1 hstep with ⟨_, rfl⟩ | ⟨_, h2⟩
    · exact hs
    · exact h2 (Or.inl hs)
  cases hc : g.coordinates with
  | undefined => simp [hc, forEach] at h
  | num x => simp [hc, forEach] at h
  | arr lines =>
    simp only [hc, forEach] at h
    constructor
    · exact forEachList_invariant (fun s => s.IsNonNegFinite ∨ s = JsNum.posInf) _ hI
        lines _ d (Or.inr rfl) h
    · rintro ⟨ls, l, hls, hl, hlong⟩
      simp only [JsVal.arr.injEq] at hls
      subst hls
      refine forEachList_reaches (fun s => s.IsNonNegFinite ∨ s = JsNum.posInf)
        (fun s => s.IsNonNegFinite) _ hI hJ lines l hl ?_ _ d (Or.inr rfl) h
      intro s s1 hs hstep
      rcases multiLineStringStep_range T p hpl s l s1 hstep with ⟨h1, _⟩ | ⟨_, h2⟩
      · rw [hlong] at h1
        exact Bool.noConfusion h1
      · exact h2 hs

theorem calculateDistanceToPolygon_range (T : Turf) (p : Feature)
    (hpl : ∀ a l x, T.pointToLineDistance a l = .ok x → x.IsNonNegFinite) (g : Geometry)
    (d : JsNum) (h : calculateDistanceToPolygon T p g = .ok d) :
    (d.IsNonNegFinite ∨ d = JsNum.posInf) ∧
      ((∀ b bg, T.polygonToLine (GeoJson.geometry g) = .ok b → b.geometry = some bg →
          bg.type = "LineString" ∨ ∃ c cs, bg.coordinates = JsVal.arr (c :: cs)) →
        d.IsNonNegFinite) := by
  simp only [calculateDistanceToPolygon, bind_ok_iff, call_ok_iff] at h
  obtain ⟨b, hb, h⟩ := h
  cases hbg : b.geometry with
  | none => simp [hbg, throw, throwThe, MonadExceptOf.throw] at h
  | some bg =>
    simp only [hbg] at h
    by_cases h1 : bg.type = "LineString"
    · simp only [h1, if_true, call_ok_iff] at h
      exact ⟨Or.inl (hpl p _ d h), fun _ => hpl p _ d h⟩
    · simp only [h1, if_false] at h
      by_cases h2 : bg.type = "MultiLineString"
      · simp only [h2, if_true] at h
        obtain ⟨r1, _, r3⟩ := forEach_boundaryPartStep_range T p hpl bg.coordinates _ d h
        refine ⟨r1 (Or.inr rfl), fun hcond => ?_⟩
        rcases hcond b bg hb hbg with hc | hc
        · exact absurd hc h1
        · exact r3 (Or.inr rfl) hc
      · simp [h2, throw, throwThe, MonadExceptOf.throw] at h

theorem calculateDistanceToMultiPolygon_range (T : Turf) (p : Feature)
    (hpl : ∀ a l x, T.pointToLineDistance a l = .ok x → x.IsNonNegFinite) (g : Geometry)
    (d : JsNum) (h : calculateDistanceToMultiPolygon T p g = .ok d) :
    (d.IsNonNegFinite ∨ d = JsNum.posInf) ∧
      ((∃ polys x, g.coordinates = JsVal.arr polys ∧ x ∈ polys ∧
          ∀ poly b, T.polygon x = .ok poly → T.polygonToLine (GeoJson.feature poly) = .ok b →
            ∃ bg, b.geometry = some bg ∧ (bg.type = "LineString" ∨
              (bg.type = "MultiLineString" ∧ ∃ c cs, bg.coordinates = JsVal.arr (c :: cs)))) →
        d.IsNonNegFinite) := by
  unfold calculateDistanceToMultiPolygon at h
  cases hc : g.coordinates with
  | undefined => simp [hc, forEach] at h
  | num x => simp [hc, forEach] at h
  | arr polys =>
    simp only [hc, forEach] at h
    constructor
    · exact forEachList_invariant (fun s => s.IsNonNegFinite ∨ s = JsNum.posInf) _
        (fun s x s1 hs hstep => (multiPolygonStep_range T p hpl s x s1 hstep).1 hs)
        polys _ d (Or.inr rfl) h
    · rintro ⟨ps, x, hps, hx, hcond⟩
      simp only [JsVal.arr.injEq] at hps
      subst hps
      exact forEachList_reaches (fun s => s.IsNonNegFinite ∨ s = JsNum.posInf)
        (fun s => s.IsNonNegFinite) _
        (fun s x s1 hs hstep => (multiPolygonStep_range T p hpl s x s1 hstep).1 hs)
        (fun s x s1 hs hstep => (multiPolygonStep_range T p hpl s x s1 hstep).2.1 hs)
        polys x hx
        (fun s s1 hs hstep => (multiPolygonStep_range T p hpl s x s1 hstep).2.2 hs hcond)
        _ d (Or.inr rfl) h

theorem calculateFeatureDistance_some_cases (T : Turf) (p feature : Feature) (g : Geometry)
    (r : DistanceResult) (hg : feature.geometry = some g)
    (hr : calculateFeatureDistance T p feature = .ok (some r)) :
    r = { distance := JsNum.fin 0, isContaining := true } ∨
      (calculateDistanceToGeometry T p g = .ok r.distance ∧ r.isContaining = false) := by
  cases hs : containmentShortCircuit T p feature g.type with
  | true =>
    rw [calculateFeatureDistance_of_shortCircuit T p feature g hg hs] at hr
    simp only [Except.ok.injEq, Option.some.injEq] at hr
    exact Or.inl hr.symm
  | false =>
    cases hd : calculateDistanceToGeometry T p g with
    | ok d =>
      rw [calculateFeatureDistance_of_distance T p feature g d hg hs hd] at hr
      simp only [Except.ok.injEq, Option.some.injEq] at hr
      subst hr
      exact Or.inr ⟨rfl, rfl⟩
    | error e =>
      rw [calculateFeatureDistance_of_error T p feature g e hg hs hd] at hr
      simp at hr

theorem planarDistance_nonneg (a b : ℚ × ℚ) : 0 ≤ planarDistance a b := by
  unfold planarDistance
  positivity

theorem planarVertexDistance_nonneg (p : ℚ × ℚ) (vs : List JsVal) (d : ℚ)
    (h : planarVertexDistance p vs = some d) : 0 ≤ d := by
  induction vs generalizing d with
  | nil => simp [planarVertexDistance] at h
  | cons v vs ih =>
    unfold planarVertexDistance at h
    cases hv : v.asPosition with
    | none =>
      simp only [hv] at h
      exact ih d h
    | some q =>
      cases hrest : planarVertexDistance p vs with
      | none =>
        simp only [hv, hrest, Option.some.injEq] at h
        exact h ▸ planarDistance_nonneg p q
      | some d1 =>
        simp only [hv, hrest, Option.some.injEq] at h
        exact h ▸ le_min (planarDistance_nonneg p q) (ih d1 hrest)

theorem planarTurf_distance_nonneg (a b : Feature) (x : JsNum)
    (h : planarTurf.distance a b = .ok x) : x.IsNonNegFinite := by
  simp only [planarTurf] at h
  cases ha : a.asPosition with
  | none => simp [ha] at h
  | some pa =>
    cases hb : b.asPosition with
    | none => simp [ha, hb] at h
    | some pb =>
      simp only [ha, hb, Except.ok.injEq] at h
      exact ⟨_, h.symm, planarDistance_nonneg pa pb⟩

theorem planarTurf_pointToLineDistance_nonneg (a : Feature) (l : GeoJson) (x : JsNum)
    (h : planarTurf.pointToLineDistance a l = .ok x) : x.IsNonNegFinite := by
  simp only [planarTurf] at h
  cases ha : a.asPosition with
  | none => simp [ha] at h
  | some pa =>
    cases hl : l.geom with
    | none => simp [ha, hl] at h
    | some g =>
      simp only [ha, hl] at h
      cases hc : g.coordinates with
      | undefined => simp [hc] at h
      | num n => simp [hc] at h
      | arr vs =>
        simp only [hc] at h
        cases hd : planarVertexDistance pa vs with
        | none => simp [hd] at h
        | some d =>
          simp only [hd, Except.ok.injEq] at h
          exact ⟨d, h.symm, planarVertexDistance_nonneg pa vs d hd⟩

/-- C7 as stated fails: with Turf functions that only return finite non-negative distances,
`calculateFeatureDistance` on an empty MultiPoint returns a result whose distance is `Infinity`,
which is not a finite real. -/
theorem distance_finite_counterexample :
    (∀ a b x, planarTurf.distance a b = .ok x → x.IsNonNegFinite) ∧
      (∀ a l x, planarTurf.pointToLineDistance a l = .ok x → x.IsNonNegFinite) ∧
      calculateFeatureDistance planarTurf (pointFeature 0 0)
          { geometry := some { type := "MultiPoint", coordinates := JsVal.arr [] } } =
        .ok (some { distance := JsNum.posInf, isContaining := false }) ∧
      ¬ JsNum.posInf.IsNonNegFinite := by
  refine ⟨planarTurf_distance_nonneg, planarTurf_pointToLineDistance_nonneg, ?_, ?_⟩
  · exact calculateFeatureDistance_of_distance planarTurf (pointFeature 0 0) _
      { type := "MultiPoint", coordinates := JsVal.arr [] } JsNum.posInf rfl
      (by simp [containmentShortCircuit])
      (by simp [calculateDistanceToGeometry, calculateDistanceToMultiPoint, forEach,
        forEachList])
  · rintro ⟨q, hq, _⟩
    exact JsNum.noConfusion hq

theorem calculateFeatureDistance_some_cases_type (T : Turf) (p feature : Feature)
    (g : Geometry) (r : DistanceResult) (hg : feature.geometry = some g)
    (hr : calculateFeatureDistance T p feature = .ok (some r)) :
    (r = { distance := JsNum.fin 0, isContaining := true } ∧
        (g.type = "Polygon" ∨ g.type = "MultiPolygon")) ∨
      (calculateDistanceToGeometry T p g = .ok r.distance ∧ r.isContaining = false) := by
  cases hs : containmentShortCircuit T p feature g.type with
  | true =>
    rw [calculateFeatureDistance_of_shortCircuit T p feature g hg hs] at hr
    simp only [Except.ok.injEq, Option.some.injEq] at hr
    exact Or.inl ⟨hr.symm, ((containmentShortCircuit_eq_true_iff T p feature g.type).1 hs).1⟩
  | false =>
    cases hd : calculateDistanceToGeometry T p g with
    | ok d =>
      rw [calculateFeatureDistance_of_distance T p feature g d hg hs hd] at hr
      simp only [Except.ok.injEq, Option.some.injEq] at hr
      subst hr
      exact Or.inr ⟨rfl, rfl⟩
    | error e =>
      rw [calculateFeatureDistance_of_error T p feature g e hg hs hd] at hr
      simp at hr

theorem forEachList_unchanged {σ : Type} (cb : σ → JsVal → Except JsError σ)
    (xs : List JsVal) (h : ∀ s, ∀ x ∈ xs, cb s x = .ok s) (init : σ) :
    forEachList cb init xs = .ok init := by
  induction xs with
  | nil => rfl
  | cons x xs ih =>
    simp only [forEachList, h init x (List.mem_cons_self x xs)]
    exact ih (fun s y hy => h s y (List.mem_cons_of_mem x hy))

/-- C7 (amended): assuming the point-to-point and point-to-line functions return finite
non-negative reals, whenever `calculateFeatureDistance` returns a result its distance is a finite
non-negative real or the `Infinity` sentinel.  It is finite for a Point, a LineString, a
MultiPoint with at least one point, a MultiLineString with at least one line of 2 or more points,
a Polygon whose boundary is a LineString or a MultiLineString with at least one part, and a
MultiPolygon with such a constituent polygon.  It is `Infinity` for an empty MultiPoint, for a
MultiLineString with no line of 2 or more points (an empty one in particular), and, when the
point is not contained, for an empty MultiPolygon. -/
theorem distance_nonneg_finite_or_infinity (T : Turf) (coordinatePoint feature : Feature)
    (g : Geometry) (r : DistanceResult)
    (hpp : ∀ a b x, T.distance a b = .ok x → x.IsNonNegFinite)
    (hpl : ∀ a l x, T.pointToLineDistance a l = .ok x → x.IsNonNegFinite)
    (hg : feature.geometry = some g)
    (hr : calculateFeatureDistance T coordinatePoint feature = .ok (some r)) :
    (r.distance.IsNonNegFinite ∨ r.distance = JsNum.posInf) ∧
      (g.type = "Point" ∨ g.type = "LineString" → r.distance.IsNonNegFinite) ∧
      (g.type = "MultiPoint" → (∃ c cs, g.coordinates = JsVal.arr (c :: cs)) →
        r.distance.IsNonNegFinite) ∧
      (g.type = "MultiLineString" →
        (∃ ls l, g.coordinates = JsVal.arr ls ∧ l ∈ ls ∧ l.isArrayLongerThanOne = true) →
        r.distance.IsNonNegFinite) ∧
      (g.type = "Polygon" →
        (∀ b bg, T.polygonToLine (GeoJson.geometry g) = .ok b → b.geometry = some bg →
          bg.type = "LineString" ∨ ∃ c cs, bg.coordinates = JsVal.arr (c :: cs)) →
        r.distance.IsNonNegFinite) ∧
      (g.type = "MultiPolygon" →
        (∃ polys x, g.coordinates = JsVal.arr polys ∧ x ∈ polys ∧
          ∀ poly b, T.polygon x = .ok poly → T.polygonToLine (GeoJson.feature poly) = .ok b →
            ∃ bg, b.geometry = some bg ∧ (bg.type = "LineString" ∨
              (bg.type = "MultiLineString" ∧ ∃ c cs, bg.coordinates = JsVal.arr (c :: cs)))) →
        r.distance.IsNonNegFinite) ∧
      (g.type = "MultiPoint" → g.coordinates = JsVal.arr [] → r.distance = JsNum.posInf) ∧
      (g.type = "MultiLineString" →
        (∃ ls, g.coordinates = JsVal.arr ls ∧ ∀ l ∈ ls, l.isArrayLongerThanOne = false) →
        r.distance = JsNum.posInf) ∧
      (g.type = "MultiPolygon" → g.coordinates = JsVal.arr [] → r.isContaining = false →
        r.distance = JsNum.posInf) := by
  have hzero : (JsNum.fin 0).IsNonNegFinite := ⟨0, rfl, le_refl 0⟩
  rcases calculateFeatureDistance_some_cases_type T coordinatePoint feature g r hg hr with
    ⟨rfl, htype⟩ | ⟨hd, _⟩
  · refine ⟨Or.inl hzero, fun _ => hzero, fun _ _ => hzero, fun _ _ => hzero,
      fun _ _ => hzero, fun _ _ => hzero, ?_, ?_, ?_⟩
    · intro ht
      rcases htype with h | h <;> rw [h] at ht <;> exact absurd ht (by decide)
    · intro ht
      rcases htype with h | h <;> rw [h] at ht <;> exact absurd ht (by decide)
    · intro _ _ hc
      exact Bool.noConfusion hc
  · refine ⟨?_, ?_, ?_, ?_, ?_, ?_, ?_, ?_, ?_⟩
    · unfold calculateDistanceToGeometry at hd
      simp only at hd
      by_cases t1 : g.type = "Polygon"
      · simp only [t1, if_true] at hd
        exact (calculateDistanceToPolygon_range T coordinatePoint hpl g _ hd).1
      by_cases t2 : g.type = "MultiPolygon"
      · simp only [t1, t2, if_true, if_false] at hd
        exact (calculateDistanceToMultiPolygon_range T coordinatePoint hpl g _ hd).1
      by_cases t3 : g.type = "LineString"
      · simp only [t1, t2, t3, if_true, if_false] at hd
        exact Or.inl (hpl coordinatePoint _ _ ((call_ok_iff _ _).1 hd))
      by_cases t4 : g.type = "MultiLineString"
      · simp only [t1, t2, t3, t4, if_true, if_false] at hd
        exact (calculateDistanceToMultiLineString_range T coordinatePoint hpl g _ hd).1
      by_cases t5 : g.type = "Point"
      · simp only [t1, t2, t3, t4, t5, if_true, if_false] at hd
        exact Or.inl (pointDistance_nonneg T coordinatePoint hpp _ _ hd)
      by_cases t6 : g.type = "MultiPoint"
      · simp only [t1, t2, t3, t4, t5, t6, if_true, if_false] at hd
        exact (calculateDistanceToMultiPoint_range T coordinatePoint hpp g _ hd).1
      · simp [t1, t2, t3, t4, t5, t6, throw, throwThe, MonadExceptOf.throw] at hd
    · rintro (ht | ht)
      · rw [calculateDistanceToGeometry_point T coordinatePoint g ht] at hd
        exact pointDistance_nonneg T coordinatePoint hpp _ _ hd
      · rw [calculateDistanceToGeometry_lineString T coordinatePoint g ht] at hd
        exact hpl coordinatePoint _ _ ((call_ok_iff _ _).1 hd)
    · intro ht hne
      rw [calculateDistanceToGeometry_multiPoint_eq T coordinatePoint g ht] at hd
      exact (calculateDistanceToMultiPoint_range T coordinatePoint hpp g _ hd).2 hne
    · intro ht hne
      rw [calculateDistanceToGeometry_multiLineString T coordinatePoint g ht] at hd
      exact (calculateDistanceToMultiLineString_range T coordinatePoint hpl g _ hd).2 hne
    · intro ht hne
      rw [calculateDistanceToGeometry_polygon T coordinatePoint g ht] at hd
      exact (calculateDistanceToPolygon_range T coordinatePoint hpl g _ hd).2 hne
    · intro ht hne
      rw [calculateDistanceToGeometry_multiPolygon T coordinatePoint g ht] at hd
      exact (calculateDistanceToMultiPolygon_range T coordinatePoint hpl g _ hd).2 hne
    · intro ht hc
      rw [calculateDistanceToGeometry_multiPoint_eq T coordinatePoint g ht] at hd
      simp only [calculateDistanceToMultiPoint, hc, forEach, forEachList,
        Except.ok.injEq] at hd
      exact hd.symm
    · rintro ht ⟨ls, hc, hshort⟩
      rw [calculateDistanceToGeometry_multiLineString T coordinatePoint g ht] at hd
      simp only [calculateDistanceToMultiLineString, hc, forEach] at hd
      rw [forEachList_unchanged (multiLineStringStep T coordinatePoint) ls
        (fun s l hl => (multiLineStringStep_ok_iff T coordinatePoint s s l).2
          (Or.inl ⟨hshort l hl, rfl⟩))] at hd
      simp only [Except.ok.injEq] at hd
      exact hd.symm
    · intro ht hc _
      rw [calculateDistanceToGeometry_multiPolygon T coordinatePoint g ht] at hd
      simp only [calculateDistanceToMultiPolygon, hc, forEach, forEachList,
        Except.ok.injEq] at hd
      exact hd.symm

theorem planarTurf_threePoints :
    calculateFeatureDistance planarTurf (pointFeature 0 0) { geometry := some threePoints } =
      .ok (some { distance := JsNum.fin 1, isContaining := false }) := by
  refine calculateFeatureDistance_of_distance planarTurf (pointFeature 0 0) _ threePoints
    (JsNum.fin 1) rfl (by simp [containmentShortCircuit, threePoints]) ?_
  simp [calculateDistanceToGeometry, calculateDistanceToMultiPoint, threePoints, forEach,
    forEachList, multiPointStep, pointDistance, planarTurf, call, pointFeature, position,
    Feature.asPosition, JsVal.asPosition, planarDistance, updateMin, JsNum.lt, bind, Except.bind,
    pure, Except.pure]
  norm_num

/-- C7 (amended) at the query point (0,0) and the MultiPoint [(0,1),(1,0),(5,5)]: the returned
distance 1 is finite and not negative. -/
theorem distance_nonneg_finite_or_infinity_witness : (JsNum.fin 1).IsNonNegFinite :=
  (distance_nonneg_finite_or_infinity planarTurf (pointFeature 0 0)
    { geometry := some threePoints } threePoints { distance := JsNum.fin 1, isContaining := false }
    planarTurf_distance_nonneg planarTurf_pointToLineDistance_nonneg rfl
    planarTurf_threePoints).2.2.1 rfl ⟨position 0 1, [position 1 0, position 5 5], rfl⟩

/-! ## Degenerate lines of a MultiLineString -/

theorem isArrayLongerThanOne_of_isShortLine (x : JsVal) (h : x.isShortLine = true) :
    x.isArrayLongerThanOne = false := by
  cases x with
  | undefined => rfl
  | num n => rfl
  | arr items =>
    simp only [JsVal.isShortLine, decide_eq_true_eq] at h
    simp only [JsVal.isArrayLongerThanOne, decide_eq_false_iff_not]
    omega

theorem forEachList_multiLineStringStep_filter (T : Turf) (p : Feature) (lines : List JsVal)
    (init : JsNum) :
    forEachList (multiLineStringStep T p) init (lines.filter (fun l => !l.isShortLine)) =
      forEachList (multiLineStringStep T p) init lines := by
  induction lines generalizing init with
  | nil => rfl
  | cons x xs ih =>
    cases hx : x.isShortLine with
    | true =>
      have hstep : multiLineStringStep T p init x = .ok init := by
        simp [multiLineStringStep, isArrayLongerThanOne_of_isShortLine x hx, pure, Except.pure]
      simp only [List.filter, hx, Bool.not_true, forEachList, hstep]
      exact ih init
    | false =>
      simp only [List.filter, hx, Bool.not_false, forEachList]
      cases multiLineStringStep T p init x with
      | ok s1 => exact ih s1
      | error e => rfl

theorem multiLineStringStep_of_long (T : Turf) (p : Feature) (s : JsNum) (L : JsVal)
    (l : Feature) (hL : L.isArrayLongerThanOne = true) (hl : T.lineString L = .ok l) :
    multiLineStringStep T p s L =
      (call (T.pointToLineDistance p (GeoJson.feature l)) >>= fun d =>
        pure (updateMin s d)) := by
  simp [multiLineStringStep, hL, lineDistance, hl, call, bind, Except.bind]

/-- C9: degenerate lines of a MultiLineString.  For every MultiLineString,
`calculateDistanceToGeometry` equals its value on the MultiLineString with all lines of fewer
than 2 points removed.  In particular, for a valid line `L` (2 or more points, accepted by
`turf.lineString`, and measured by `pointToLineDistance` to the same number, not `NaN`, whether
passed as a feature or as a bare geometry), the MultiLineString made of one empty sub-array and
`L`, in either order, yields exactly `calculateDistanceToGeometry` of the LineString `L`. -/
theorem multiLineString_degenerate_lines (T : Turf) (coordinatePoint : Feature) (g : Geometry)
    (ht : g.type = "MultiLineString") :
    calculateDistanceToGeometry T coordinatePoint g =
        calculateDistanceToGeometry T coordinatePoint
          { g with coordinates := removeShortLines g.coordinates } ∧
      ∀ (L : JsVal) (l : Feature), L.isArrayLongerThanOne = true → T.lineString L = .ok l →
        T.pointToLineDistance coordinatePoint (GeoJson.feature l) =
          T.pointToLineDistance coordinatePoint
            (GeoJson.geometry { type := "LineString", coordinates := L }) →
        (∀ d, T.pointToLineDistance coordinatePoint
            (GeoJson.geometry { type := "LineString", coordinates := L }) = .ok d →
          d ≠ JsNum.nan) →
        calculateDistanceToGeometry T coordinatePoint
            { type := "MultiLineString", coordinates := JsVal.arr [JsVal.arr [], L] } =
          calculateDistanceToGeometry T coordinatePoint
            { type := "LineString", coordinates := L } ∧
        calculateDistanceToGeometry T coordinatePoint
            { type := "MultiLineString", coordinates := JsVal.arr [L, JsVal.arr []] } =
          calculateDistanceToGeometry T coordinatePoint
            { type := "LineString", coordinates := L } := by
  constructor
  · rw [calculateDistanceToGeometry_multiLineString T coordinatePoint g ht,
      calculateDistanceToGeometry_multiLineString T coordinatePoint
        { g with coordinates := removeShortLines g.coordinates } ht]
    unfold calculateDistanceToMultiLineString
    cases hc : g.coordinates with
    | undefined => rfl
    | num n => rfl
    | arr lines =>
      simp only [removeShortLines, forEach]
      exact (forEachList_multiLineStringStep_filter T coordinatePoint lines JsNum.posInf).symm
  · intro L l hL hl hsame hnum
    have hempty : ∀ s, multiLineStringStep T coordinatePoint s (JsVal.arr []) = .ok s := by
      intro s
      simp [multiLineStringStep, JsVal.isArrayLongerThanOne, pure, Except.pure]
    have hstep := multiLineStringStep_of_long T coordinatePoint JsNum.posInf L l hL hl
    rw [calculateDistanceToGeometry_multiLineString T coordinatePoint
        { type := "MultiLineString", coordinates := JsVal.arr [JsVal.arr [], L] } rfl,
      calculateDistanceToGeometry_multiLineString T coordinatePoint
        { type := "MultiLineString", coordinates := JsVal.arr [L, JsVal.arr []] } rfl,
      calculateDistanceToGeometry_lineString T coordinatePoint
        { type := "LineString", coordinates := L } rfl]
    simp only [calculateDistanceToMultiLineString, forEach, forEachList, hempty, hstep, hsame]
    cases hd : T.pointToLineDistance coordinatePoint
        (GeoJson.geometry { type := "LineString", coordinates := L }) with
    | error m => simp [call, bind, Except.bind]
    | ok d =>
      have hdn := hnum d hd
      simp [call, bind, Except.bind, pure, Except.pure, updateMin_posInf hdn, hempty]

/-- C9 at the query point (0,0) and the line [(3,0),(4,4)] next to an empty sub-array. -/
theorem multiLineString_degenerate_lines_witness :
    calculateDistanceToGeometry planarTurf (pointFeature 0 0)
        { type := "MultiLineString", coordinates := JsVal.arr [JsVal.arr [], sampleLine] } =
      calculateDistanceToGeometry planarTurf (pointFeature 0 0)
        { type := "LineString", coordinates := sampleLine } ∧
    calculateDistanceToGeometry planarTurf (pointFeature 0 0)
        { type := "MultiLineString", coordinates := JsVal.arr [sampleLine, JsVal.arr []] } =
      calculateDistanceToGeometry planarTurf (pointFeature 0 0)
        { type := "LineString", coordinates := sampleLine } :=
  (multiLineString_degenerate_lines planarTurf (pointFeature 0 0)
    { type := "MultiLineString", coordinates := JsVal.arr [JsVal.arr [], sampleLine] } rfl).2
    sampleLine { geometry := some { type := "LineString", coordinates := sampleLine } }
    rfl rfl rfl
    (fun d hd h =>
      (planarTurf_pointToLineDistance_nonneg _ _ d hd).elim
        fun _ hq => JsNum.noConfusion (h ▸ hq.1))

/-! ## The boundary of a Polygon -/

theorem lineDistance_error (T : Turf) (p : Feature) (c : JsVal) (e : JsError)
    (h : lineDistance T p c = .error e) : ∃ m, e = JsError.turf m := by
  simp only [lineDistance, bind_error_iff, call_error_iff, call_ok_iff] at h
  rcases h with ⟨m, _, hm⟩ | ⟨_, _, m, _, hm⟩
  · exact ⟨m, hm⟩
  · exact ⟨m, hm⟩

theorem boundaryPartStep_error (T : Turf) (p : Feature) (s : JsNum) (c : JsVal) (e : JsError)
    (h : boundaryPartStep T p s c = .error e) : ∃ m, e = JsError.turf m := by
  simp only [boundaryPartStep, bind_error_iff] at h
  rcases h with h | ⟨d, _, h⟩
  · exact lineDistance_error T p c e h
  · simp [pure, Except.pure] at h

theorem forEachList_boundaryPartStep_error (T : Turf) (p : Feature) (xs : List JsVal)
    (s : JsNum) (e : JsError) (h : forEachList (boundaryPartStep T p) s xs = .error e) :
    ∃ m, e = JsError.turf m := by
  induction xs generalizing s with
  | nil => simp [forEachList] at h
  | cons x xs ih =>
    cases hx : boundaryPartStep T p s x with
    | ok s1 =>
      simp only [forEachList, hx] at h
      exact ih s1 h
    | error e1 =>
      simp only [forEachList, hx, Except.error.injEq] at h
      exact h ▸ boundaryPartStep_error T p s x e1 hx

theorem calculateDistanceToPolygon_of_boundary (T : Turf) (p : Feature) (g : Geometry)
    (b : Feature) (bg : Geometry) (hb : T.polygonToLine (GeoJson.geometry g) = .ok b)
    (hbg : b.geometry = some bg) :
    calculateDistanceToPolygon T p g =
      if bg.type = "LineString" then call (T.pointToLineDistance p (GeoJson.feature b))
      else if bg.type = "MultiLineString" then
        forEach bg.coordinates (boundaryPartStep T p) JsNum.posInf
      else .error JsError.invalidPolygonBoundary := by
  simp only [calculateDistanceToPolygon, hb, call, bind, Except.bind, hbg]
  rfl

/-- C10: Polygon boundary dispatch.  For every Polygon, `calculateDistanceToGeometry` returns
the point-to-line distance to the boundary when `polygonToLine` yields a LineString; the minimum
of the point-to-line distances over the parts when it yields a MultiLineString (the distances
being numbers); and it throws the invalid-polygon-boundary error if and only if the extracted
boundary geometry is neither a LineString nor a MultiLineString. -/
theorem polygon_boundary_dispatch (T : Turf) (coordinatePoint : Feature) (g : Geometry)
    (ht : g.type = "Polygon") :
    (∀ b bg, T.polygonToLine (GeoJson.geometry g) = .ok b → b.geometry = some bg →
      bg.type = "LineString" →
      calculateDistanceToGeometry T coordinatePoint g =
        call (T.pointToLineDistance coordinatePoint (GeoJson.feature b))) ∧
    (∀ b bg parts, T.polygonToLine (GeoJson.geometry g) = .ok b → b.geometry = some bg →
      bg.type = "MultiLineString" → bg.coordinates = JsVal.arr parts →
      (∀ c ∈ parts, ∃ d, lineDistance T coordinatePoint c = .ok d ∧ d ≠ JsNum.nan) →
      ∃ m, calculateDistanceToGeometry T coordinatePoint g = .ok m ∧
        (∀ c ∈ parts, ∀ d, lineDistance T coordinatePoint c = .ok d → m.le d = true) ∧
        (parts ≠ [] → ∃ c ∈ parts, lineDistance T coordinatePoint c = .ok m) ∧
        (parts = [] → m = JsNum.posInf)) ∧
    (calculateDistanceToGeometry T coordinatePoint g = .error JsError.invalidPolygonBoundary ↔
      ∃ b bg, T.polygonToLine (GeoJson.geometry g) = .ok b ∧ b.geometry = some bg ∧
        bg.type ≠ "LineString" ∧ bg.type ≠ "MultiLineString") := by
  rw [calculateDistanceToGeometry_polygon T coordinatePoint g ht]
  refine ⟨?_, ?_, ?_⟩
  · intro b bg hb hbg hls
    rw [calculateDistanceToPolygon_of_boundary T coordinatePoint g b bg hb hbg, if_pos hls]
  · intro b bg parts hb hbg hmls hparts hd
    have hnls : bg.type ≠ "LineString" := by
      rw [hmls]
      decide
    rw [calculateDistanceToPolygon_of_boundary T coordinatePoint g b bg hb hbg, if_neg hnls,
      if_pos hmls, hparts]
    exact forEachList_minimum (lineDistance T coordinatePoint) _ parts
      (fun s x d hx => (boundaryPartStep_ok_iff T coordinatePoint s _ x).2 ⟨d, hx, rfl⟩) hd
  · constructor
    · intro h
      cases hb : T.polygonToLine (GeoJson.geometry g) with
      | error m => simp [calculateDistanceToPolygon, hb, call, bind, Except.bind] at h
      | ok b =>
        cases hbg : b.geometry with
        | none =>
          simp [calculateDistanceToPolygon, hb, call, bind, Except.bind, hbg, throw, throwThe,
            MonadExceptOf.throw] at h
        | some bg =>
          rw [calculateDistanceToPolygon_of_boundary T coordinatePoint g b bg hb hbg] at h
          refine ⟨b, bg, rfl, hbg, ?_, ?_⟩
          · intro hls
            rw [if_pos hls] at h
            obtain ⟨m, _, hm⟩ := (call_error_iff _ _).1 h
            exact JsError.noConfusion hm
          · intro hmls
            have hnls : bg.type ≠ "LineString" := by
              rw [hmls]
              decide
            rw [if_neg hnls, if_pos hmls] at h
            cases hc : bg.coordinates with
            | undefined => simp [hc, forEach] at h
            | num n => simp [hc, forEach] at h
            | arr parts =>
              simp only [hc, forEach] at h
              obtain ⟨m, hm⟩ := forEachList_boundaryPartStep_error T coordinatePoint parts _ _ h
              exact JsError.noConfusion hm
    · rintro ⟨b, bg, hb, hbg, h1, h2⟩
      rw [calculateDistanceToPolygon_of_boundary T coordinatePoint g b bg hb hbg, if_neg h1,
        if_neg h2]

theorem planarTurf_lineDistance_holedSquare :
    ∀ c ∈ holedSquareRings,
      ∃ d, lineDistance planarTurf (pointFeature 5 5) c = .ok d ∧ d ≠ JsNum.nan := by
  intro c hcmem
  simp only [holedSquareRings, List.mem_cons, List.mem_singleton, List.not_mem_nil,
    or_false] at hcmem
  rcases hcmem with rfl | rfl <;>
    simp [lineDistance, planarTurf, call, pointFeature, position, Feature.asPosition,
      JsVal.asPosition, JsVal.isArrayLongerThanOne, GeoJson.geom, planarVertexDistance, bind,
      Except.bind]

/-- C10 at the query point (5,5) and the square with a hole, whose boundary is a
MultiLineString of two rings: the result is the minimum over the two rings. -/
theorem polygon_boundary_dispatch_witness :
    ∃ m, calculateDistanceToGeometry planarTurf (pointFeature 5 5) holedSquare = .ok m ∧
      (∀ c ∈ holedSquareRings, ∀ d,
        lineDistance planarTurf (pointFeature 5 5) c = .ok d → m.le d = true) ∧
      (holedSquareRings ≠ [] →
        ∃ c ∈ holedSquareRings, lineDistance planarTurf (pointFeature 5 5) c = .ok m) ∧
      (holedSquareRings = [] → m = JsNum.posInf) :=
  (polygon_boundary_dispatch planarTurf (pointFeature 5 5) holedSquare rfl).2.1
    { geometry := some { type := "MultiLineString", coordinates := JsVal.arr holedSquareRings } }
    { type := "MultiLineString", coordinates := JsVal.arr holedSquareRings }
    holedSquareRings rfl rfl rfl rfl planarTurf_lineDistance_holedSquare

/-! ## MultiPolygon -/

theorem multiPolygonStep_error_of_polygon (T : Turf) (p : Feature) (x : JsVal)
    (message : String) (h : T.polygon x = .error message) (s : JsNum) :
    multiPolygonStep T p s x = .error (JsError.turf message) := by
  simp [multiPolygonStep, h, call, bind, Except.bind]

theorem forEach_boundaryPartStep_error (T : Turf) (p : Feature) (v : JsVal) (s : JsNum)
    (e : JsError) (h : forEach v (boundaryPartStep T p) s = .error e) :
    e = JsError.typeError ∨ ∃ m, e = JsError.turf m := by
  cases v with
  | arr items => exact Or.inr (forEachList_boundaryPartStep_error T p items s e h)
  | undefined =>
    simp only [forEach, Except.error.injEq] at h
    exact Or.inl h.symm
  | num x =>
    simp only [forEach, Except.error.injEq] at h
    exact Or.inl h.symm

theorem multiPolygonStep_error (T : Turf) (p : Feature) (s : JsNum) (x : JsVal) (e : JsError)
    (h : multiPolygonStep T p s x = .error e) :
    e = JsError.typeError ∨ ∃ m, e = JsError.turf m := by
  simp only [multiPolygonStep, bind_error_iff, call_error_iff, call_ok_iff] at h
  rcases h with ⟨m, _, hm⟩ | ⟨poly, _, h⟩
  · exact Or.inr ⟨m, hm⟩
  · rcases h with ⟨m, _, hm⟩ | ⟨b, _, h⟩
    · exact Or.inr ⟨m, hm⟩
    · cases hbg : b.geometry with
      | none =>
        simp only [hbg, throw, throwThe, MonadExceptOf.throw, Except.error.injEq] at h
        exact Or.inl h.symm
      | some bg =>
        simp only [hbg] at h
        by_cases h1 : bg.type = "LineString"
        · simp only [h1, if_true, bind_error_iff, call_error_iff] at h
          rcases h with ⟨m, _, hm⟩ | ⟨d, _, h⟩
          · exact Or.inr ⟨m, hm⟩
          · simp [pure, Except.pure] at h
        · simp only [h1, if_false] at h
          by_cases h2 : bg.type = "MultiLineString"
          · simp only [h2, if_true] at h
            exact forEach_boundaryPartStep_error T p bg.coordinates s e h
          · simp [h2, pure, Except.pure] at h

theorem multiPolygonStep_skip (T : Turf) (p : Feature) (x : JsVal) (poly b : Feature)
    (bg : Geometry) (hpoly : T.polygon x = .ok poly)
    (hb : T.polygonToLine (GeoJson.feature poly) = .ok b) (hbg : b.geometry = some bg)
    (h1 : bg.type ≠ "LineString") (h2 : bg.type ≠ "MultiLineString") (s : JsNum) :
    multiPolygonStep T p s x = .ok s :=
  (multiPolygonStep_ok_iff T p s s x).2
    ⟨poly, b, bg, hpoly, hb, hbg, Or.inr (Or.inr ⟨h1, h2, rfl⟩)⟩

/-- C11 as stated fails: the ring set made of the one ring (0,0), (0,2), (2,0), which is not
closed, has a boundary that is a LineString, and `calculateDistanceToGeometry` at (5,0) returns
3 on the Polygon of that ring set; on the MultiPolygon made of that one ring set it throws,
because `turf.polygon` rejects the ring. -/
theorem multiPolygon_rejected_ring_counterexample :
    planarTurf.polygonToLine (GeoJson.geometry { type := "Polygon", coordinates := openRings }) =
        .ok { geometry := some { type := "LineString",
                                 coordinates := JsVal.arr [position 0 0, position 0 2,
                                   position 2 0] } } ∧
      calculateDistanceToGeometry planarTurf (pointFeature 5 0)
        { type := "Polygon", coordinates := openRings } = .ok (JsNum.fin 3) ∧
      calculateDistanceToGeometry planarTurf (pointFeature 5 0)
        { type := "MultiPolygon", coordinates := JsVal.arr [openRings] } =
        .error (JsError.turf "Each LinearRing of a Polygon must have 4 or more Positions.") := by
  refine ⟨rfl, ?_, ?_⟩
  · simp [calculateDistanceToGeometry, calculateDistanceToPolygon, planarTurf, openRings, call,
      pointFeature, position, Feature.asPosition, JsVal.asPosition, GeoJson.geom,
      planarVertexDistance, planarDistance, bind, Except.bind]
    norm_num
  · simp [calculateDistanceToGeometry, calculateDistanceToMultiPolygon, forEach, forEachList,
      multiPolygonStep, planarTurf, linearRingError, openRings, call, bind, Except.bind]

/-- C11 (amended): a MultiPolygon is the minimum of its Polygons when `turf.polygon` accepts its
ring sets.  When every constituent ring set is accepted by `turf.polygon`, has the same boundary
whether extracted from that feature or from the bare Polygon geometry, and has a Polygon distance
that is a number (so its boundary is a LineString or a MultiLineString),
`calculateDistanceToGeometry` on the MultiPolygon is `<=` the Polygon distance of every
constituent and equal to one of them (`Infinity` for no constituent); in particular a
MultiPolygon with a single polygon gives the distance of that Polygon.  When `turf.polygon`
rejects a constituent ring set, `calculateDistanceToGeometry` on the MultiPolygon throws. -/
theorem multiPolygon_minimum_of_polygons (T : Turf) (coordinatePoint : Feature) (g : Geometry)
    (polys : List JsVal) (ht : g.type = "MultiPolygon") (hc : g.coordinates = JsVal.arr polys) :
    ((∀ x ∈ polys, ∃ poly, T.polygon x = .ok poly ∧
        T.polygonToLine (GeoJson.feature poly) =
          T.polygonToLine (GeoJson.geometry { type := "Polygon", coordinates := x })) →
      (∀ x ∈ polys, ∃ d, calculateDistanceToGeometry T coordinatePoint
        { type := "Polygon", coordinates := x } = .ok d ∧ d ≠ JsNum.nan) →
      ∃ m, calculateDistanceToGeometry T coordinatePoint g = .ok m ∧
        (∀ x ∈ polys, ∀ d, calculateDistanceToGeometry T coordinatePoint
          { type := "Polygon", coordinates := x } = .ok d → m.le d = true) ∧
        (polys ≠ [] → ∃ x ∈ polys, calculateDistanceToGeometry T coordinatePoint
          { type := "Polygon", coordinates := x } = .ok m) ∧
        (polys = [] → m = JsNum.posInf) ∧
        (∀ x, polys = [x] → calculateDistanceToGeometry T coordinatePoint
          { type := "Polygon", coordinates := x } = .ok m)) ∧
    (∀ x ∈ polys, ∀ message, T.polygon x = .error message →
      ∃ e, calculateDistanceToGeometry T coordinatePoint g = .error e) := by
  refine ⟨?_, ?_⟩
  · intro hpoly hd
    have hcb : ∀ s, ∀ x ∈ polys, ∀ d, calculateDistanceToGeometry T coordinatePoint
        { type := "Polygon", coordinates := x } = .ok d →
        multiPolygonStep T coordinatePoint s x = .ok (updateMin s d) := by
      intro s x hx d hxd
      obtain ⟨poly, hp1, hp2⟩ := hpoly x hx
      obtain ⟨d1, hd1, hdn⟩ := hd x hx
      rw [hxd] at hd1
      simp only [Except.ok.injEq] at hd1
      subst hd1
      rw [calculateDistanceToGeometry_polygon T coordinatePoint
        { type := "Polygon", coordinates := x } rfl] at hxd
      exact multiPolygonStep_shift T coordinatePoint x s d
        (multiPolygonStep_of_polygon T coordinatePoint x poly d hp1 hp2 hxd hdn)
    obtain ⟨m, hm, h1, h2, h3⟩ := forEachList_minimum_mem
      (fun x => calculateDistanceToGeometry T coordinatePoint
        { type := "Polygon", coordinates := x })
      (multiPolygonStep T coordinatePoint) polys hcb hd
    refine ⟨m, ?_, h1, h2, h3, ?_⟩
    · rw [calculateDistanceToGeometry_multiPolygon T coordinatePoint g ht]
      simp only [calculateDistanceToMultiPolygon, hc, forEach]
      exact hm
    · intro x hx
      subst hx
      obtain ⟨c, hcmem, hcm⟩ := h2 (List.cons_ne_nil x [])
      rw [List.mem_singleton] at hcmem
      exact hcmem ▸ hcm
  · intro x hx message hmsg
    rw [calculateDistanceToGeometry_multiPolygon T coordinatePoint g ht]
    simp only [calculateDistanceToMultiPolygon, hc, forEach]
    exact forEachList_error_of_mem _ polys x hx
      (fun s => ⟨_, multiPolygonStep_error_of_polygon T coordinatePoint x message hmsg s⟩) _

theorem planarTurf_polygon_twoSquares :
    ∀ x ∈ twoSquares, planarTurf.polygon x =
      .ok { geometry := some { type := "Polygon", coordinates := x } } := by
  intro x hx
  simp only [twoSquares, List.mem_cons, List.mem_singleton, List.not_mem_nil, or_false] at hx
  rcases hx with rfl | rfl <;>
    simp [planarTurf, linearRingError, position, JsVal.asPosition]

theorem planarTurf_twoSquares_polygon :
    ∀ x ∈ twoSquares, ∃ poly, planarTurf.polygon x = .ok poly ∧
      planarTurf.polygonToLine (GeoJson.feature poly) =
        planarTurf.polygonToLine (GeoJson.geometry { type := "Polygon", coordinates := x }) :=
  fun x hx => ⟨{ geometry := some { type := "Polygon", coordinates := x } },
    planarTurf_polygon_twoSquares x hx, rfl⟩

theorem planarTurf_twoSquares_distance :
    ∀ x ∈ twoSquares, ∃ d, calculateDistanceToGeometry planarTurf (pointFeature 5 0)
      { type := "Polygon", coordinates := x } = .ok d ∧ d ≠ JsNum.nan := by
  intro x hx
  simp only [twoSquares, List.mem_cons, List.mem_singleton, List.not_mem_nil, or_false] at hx
  rcases hx with rfl | rfl <;>
    simp [calculateDistanceToGeometry, calculateDistanceToPolygon, planarTurf, call,
      pointFeature, position, Feature.asPosition, JsVal.asPosition, GeoJson.geom,
      planarVertexDistance, bind, Except.bind]

/-- C11 (amended) at the query point (5,0) and the MultiPolygon of the squares (0,0)-(2,2) and
(3,3)-(4,4), both accepted by `turf.polygon`. -/
theorem multiPolygon_minimum_of_polygons_witness :
    ∃ m, calculateDistanceToGeometry planarTurf (pointFeature 5 0)
        { type := "MultiPolygon", coordinates := JsVal.arr twoSquares } = .ok m ∧
      (∀ x ∈ twoSquares, ∀ d, calculateDistanceToGeometry planarTurf (pointFeature 5 0)
        { type := "Polygon", coordinates := x } = .ok d → m.le d = true) ∧
      (twoSquares ≠ [] → ∃ x ∈ twoSquares, calculateDistanceToGeometry planarTurf
        (pointFeature 5 0) { type := "Polygon", coordinates := x } = .ok m) ∧
      (twoSquares = [] → m = JsNum.posInf) ∧
      (∀ x, twoSquares = [x] → calculateDistanceToGeometry planarTurf (pointFeature 5 0)
        { type := "Polygon", coordinates := x } = .ok m) :=
  (multiPolygon_minimum_of_polygons planarTurf (pointFeature 5 0)
    { type := "MultiPolygon", coordinates := JsVal.arr twoSquares } twoSquares rfl rfl).1
    planarTurf_twoSquares_polygon planarTurf_twoSquares_distance

/-- C12 as stated fails: with a boundary extraction that returns a geometry tagged `Point`,
which is neither a LineString nor a MultiLineString, `calculateDistanceToGeometry` on the Polygon
throws the invalid-polygon-boundary error, but on the MultiPolygon made of that one polygon it
skips the polygon and returns `Infinity`, and `calculateFeatureDistance` returns
`{distance: Infinity, isContaining: false}` instead of `null`. -/
theorem multiPolygon_invalid_boundary_skipped :
    calculateDistanceToGeometry pointBoundaryTurf (pointFeature 5 0)
        { type := "Polygon", coordinates := squareRings } =
        .error JsError.invalidPolygonBoundary ∧
      calculateDistanceToGeometry pointBoundaryTurf (pointFeature 5 0)
        { type := "MultiPolygon", coordinates := JsVal.arr [squareRings] } =
        .ok JsNum.posInf ∧
      calculateFeatureDistance pointBoundaryTurf (pointFeature 5 0)
        { geometry := some { type := "MultiPolygon", coordinates := JsVal.arr [squareRings] } } =
        .ok (some { distance := JsNum.posInf, isContaining := false }) := by
  have h2 : calculateDistanceToGeometry pointBoundaryTurf (pointFeature 5 0)
      { type := "MultiPolygon", coordinates := JsVal.arr [squareRings] } = .ok JsNum.posInf := by
    simp [calculateDistanceToGeometry, calculateDistanceToMultiPolygon, forEach, forEachList,
      multiPolygonStep, pointBoundaryTurf, planarTurf, linearRingError, squareRings, position,
      JsVal.asPosition, call, bind, Except.bind, pure, Except.pure]
  refine ⟨?_, h2, ?_⟩
  · simp [calculateDistanceToGeometry, calculateDistanceToPolygon, pointBoundaryTurf, call,
      bind, Except.bind, throw, throwThe, MonadExceptOf.throw]
  · refine calculateFeatureDistance_of_distance pointBoundaryTurf (pointFeature 5 0) _
      { type := "MultiPolygon", coordinates := JsVal.arr [squareRings] } JsNum.posInf rfl ?_ h2
    simp [containmentShortCircuit, pointBoundaryTurf, planarTurf, call, pointFeature, position,
      Feature.asPosition, JsVal.asPosition, squareRings, insideBoundingBox]

/-- C12 (amended): an invalid boundary is not a failure for a MultiPolygon.  For every
MultiPolygon, `calculateDistanceToGeometry` never throws the invalid-polygon-boundary error; a
constituent polygon whose extracted boundary is neither a LineString nor a MultiLineString is
skipped, so the outcome is that of the MultiPolygon without this constituent (`Infinity` when it
is the only one); and `calculateFeatureDistance`, when the point is not contained, returns
absent only if `calculateDistanceToGeometry` fails on another constituent, and otherwise the
distance over the other constituents. -/
theorem multiPolygon_never_invalid_boundary (T : Turf) (coordinatePoint : Feature)
    (g : Geometry) (ht : g.type = "MultiPolygon") :
    calculateDistanceToGeometry T coordinatePoint g ≠ .error JsError.invalidPolygonBoundary ∧
    (∀ pre x post poly b bg, g.coordinates = JsVal.arr (pre ++ x :: post) →
      T.polygon x = .ok poly → T.polygonToLine (GeoJson.feature poly) = .ok b →
      b.geometry = some bg → bg.type ≠ "LineString" → bg.type ≠ "MultiLineString" →
      calculateDistanceToGeometry T coordinatePoint g =
          calculateDistanceToGeometry T coordinatePoint
            { type := "MultiPolygon", coordinates := JsVal.arr (pre ++ post) } ∧
        (pre = [] → post = [] →
          calculateDistanceToGeometry T coordinatePoint g = .ok JsNum.posInf) ∧
        (containmentShortCircuit T coordinatePoint { geometry := some g } g.type = false →
          calculateFeatureDistance T coordinatePoint { geometry := some g } =
            match calculateDistanceToGeometry T coordinatePoint
              { type := "MultiPolygon", coordinates := JsVal.arr (pre ++ post) } with
            | .ok d => .ok (some { distance := d, isContaining := false })
            | .error _ => .ok none)) := by
  refine ⟨?_, ?_⟩
  · intro h
    rw [calculateDistanceToGeometry_multiPolygon T coordinatePoint g ht] at h
    simp only [calculateDistanceToMultiPolygon] at h
    cases hco : g.coordinates with
    | arr polys =>
      rw [hco] at h
      simp only [forEach] at h
      obtain ⟨s1, x, _, hx⟩ := forEachList_error_elim _ polys _ _ h
      rcases multiPolygonStep_error T coordinatePoint s1 x _ hx with he | ⟨m, he⟩
      · exact JsError.noConfusion he
      · exact JsError.noConfusion he
    | undefined =>
      rw [hco] at h
      simp only [forEach, Except.error.injEq] at h
      exact JsError.noConfusion h
    | num v =>
      rw [hco] at h
      simp only [forEach, Except.error.injEq] at h
      exact JsError.noConfusion h
  · intro pre x post poly b bg hc hpoly hb hbg h1 h2
    have hskip : calculateDistanceToGeometry T coordinatePoint g =
        calculateDistanceToGeometry T coordinatePoint
          { type := "MultiPolygon", coordinates := JsVal.arr (pre ++ post) } := by
      rw [calculateDistanceToGeometry_multiPolygon T coordinatePoint g ht,
        calculateDistanceToGeometry_multiPolygon T coordinatePoint _ rfl]
      simp only [calculateDistanceToMultiPolygon, hc, forEach]
      exact forEachList_skip _ pre post x
        (multiPolygonStep_skip T coordinatePoint x poly b bg hpoly hb hbg h1 h2) _
    refine ⟨hskip, ?_, ?_⟩
    · intro hpre hpost
      rw [hskip, hpre, hpost]
      rfl
    · intro hs
      cases hd : calculateDistanceToGeometry T coordinatePoint
          { type := "MultiPolygon", coordinates := JsVal.arr (pre ++ post) } with
      | ok d =>
        exact calculateFeatureDistance_of_distance T coordinatePoint _ g d rfl hs
          (hskip.trans hd)
      | error e =>
        exact calculateFeatureDistance_of_error T coordinatePoint _ g e rfl hs
          (hskip.trans hd)

/-- C12 (amended) at the query point (5,0), the MultiPolygon made of the square (0,0)-(2,2) and
a boundary extraction that returns a geometry tagged `Point`: the square is skipped, and the
outcome is that of the MultiPolygon without constituents. -/
theorem multiPolygon_never_invalid_boundary_witness :
    calculateDistanceToGeometry pointBoundaryTurf (pointFeature 5 0)
        { type := "MultiPolygon", coordinates := JsVal.arr [squareRings] } ≠
        .error JsError.invalidPolygonBoundary ∧
      calculateDistanceToGeometry pointBoundaryTurf (pointFeature 5 0)
        { type := "MultiPolygon", coordinates := JsVal.arr [squareRings] } =
        calculateDistanceToGeometry pointBoundaryTurf (pointFeature 5 0)
          { type := "MultiPolygon", coordinates := JsVal.arr [] } :=
  ⟨(multiPolygon_never_invalid_boundary pointBoundaryTurf (pointFeature 5 0)
      { type := "MultiPolygon", coordinates := JsVal.arr [squareRings] } rfl).1,
    ((multiPolygon_never_invalid_boundary pointBoundaryTurf (pointFeature 5 0)
      { type := "MultiPolygon", coordinates := JsVal.arr [squareRings] } rfl).2
      [] squareRings [] { geometry := some { type := "Polygon", coordinates := squareRings } }
      { geometry := some { type := "Point", coordinates := position 0 0 } }
      { type := "Point", coordinates := position 0 0 } rfl
      (by simp [pointBoundaryTurf, planarTurf, linearRingError, squareRings, position,
        JsVal.asPosition])
      rfl rfl (by decide) (by decide)).1⟩

/-! ## Failures inside the distance loops -/

/-- C13 on the code: a failure in the computation for one part of a polygon boundary is not
absorbed.  The Polygon has the ring of the square (0,0)-(2,2) and a second ring of one position,
so its boundary is the MultiLineString of both rings.  At the query point (5,0) the line distance
is 3 on the first ring and throws on the second, where no line can be constructed;
`calculateDistanceToGeometry` throws and `calculateFeatureDistance` returns `null`, instead of
the minimum 3 over the ring that can be measured.  On the same two rings the loop of
`calculateDistanceToMultiLineString` skips the second and returns 3, and the loop of
`getNearestPointOnFeature` on the same Polygon skips it and returns a point. -/
theorem polygon_degenerate_ring_not_absorbed :
    planarTurf.polygonToLine (GeoJson.geometry degenerateRingPolygon) =
        .ok { geometry := some { type := "MultiLineString",
                                 coordinates := JsVal.arr [squareRing, degenerateRing] } } ∧
      lineDistance planarTurf (pointFeature 5 0) squareRing = .ok (JsNum.fin 3) ∧
      lineDistance planarTurf (pointFeature 5 0) degenerateRing =
        .error (JsError.turf "coordinates must be an array of two or more positions") ∧
      calculateDistanceToGeometry planarTurf (pointFeature 5 0) degenerateRingPolygon =
        .error (JsError.turf "coordinates must be an array of two or more positions") ∧
      calculateFeatureDistance planarTurf (pointFeature 5 0)
        { geometry := some degenerateRingPolygon } = .ok none ∧
      calculateDistanceToGeometry planarTurf (pointFeature 5 0)
        { type := "MultiLineString", coordinates := JsVal.arr [squareRing, degenerateRing] } =
        .ok (JsNum.fin 3) ∧
      ∃ pt, getNearestPointOnFeature planarTurf (pointFeature 5 0)
        { geometry := some degenerateRingPolygon } = .ok (some pt) := by
  have h1 : lineDistance planarTurf (pointFeature 5 0) squareRing = .ok (JsNum.fin 3) := by
    simp [lineDistance, planarTurf, call, squareRing, pointFeature, position,
      Feature.asPosition, JsVal.asPosition, JsVal.isArrayLongerThanOne, GeoJson.geom,
      planarVertexDistance, planarDistance, bind, Except.bind]
    norm_num
  have h2 : lineDistance planarTurf (pointFeature 5 0) degenerateRing =
      .error (JsError.turf "coordinates must be an array of two or more positions") := by
    simp [lineDistance, planarTurf, call, degenerateRing, JsVal.isArrayLongerThanOne, bind,
      Except.bind]
  have h3 : calculateDistanceToGeometry planarTurf (pointFeature 5 0) degenerateRingPolygon =
      .error (JsError.turf "coordinates must be an array of two or more positions") := by
    rw [calculateDistanceToGeometry_polygon _ _ _ rfl,
      calculateDistanceToPolygon_of_boundary planarTurf (pointFeature 5 0) degenerateRingPolygon
        { geometry := some { type := "MultiLineString",
                             coordinates := JsVal.arr [squareRing, degenerateRing] } }
        { type := "MultiLineString", coordinates := JsVal.arr [squareRing, degenerateRing] }
        rfl rfl]
    simp [forEach, forEachList, boundaryPartStep, h1, h2, bind, Except.bind, pure, Except.pure]
  refine ⟨rfl, h1, h2, h3, ?_, ?_, ?_⟩
  · refine calculateFeatureDistance_of_error planarTurf (pointFeature 5 0) _
      degenerateRingPolygon _ rfl ?_ h3
    simp [containmentShortCircuit, degenerateRingPolygon, planarTurf, call, pointFeature,
      position, Feature.asPosition, JsVal.asPosition, squareRing, insideBoundingBox]
  · rw [calculateDistanceToGeometry_multiLineString _ _ _ rfl]
    have l1 : squareRing.isArrayLongerThanOne = true := rfl
    have l2 : degenerateRing.isArrayLongerThanOne = false := rfl
    simp [calculateDistanceToMultiLineString, forEach, forEachList, multiLineStringStep, h1,
      l1, l2, bind, Except.bind, pure, Except.pure, updateMin, JsNum.lt]
  · refine ⟨pointFeature 0 0, ?_⟩
    simp [getNearestPointOnFeature, nearestPointTry, lineForNearestPoint, degenerateRingPolygon,
      planarTurf, call, forEach, forEachList, nearestSegmentStep, nearestSegmentTry, squareRing,
      degenerateRing, JsVal.truthy, JsVal.isArrayLongerThanOne, pointFeature, position,
      Feature.asPosition, JsVal.asPosition, planarDistance, JsNum.lt, GeoJson.geom, bind,
      Except.bind, pure, Except.pure]

/-! ## The nearest-point loops -/

theorem nearestSegmentStep_eq (T : Turf) (p : Feature) (st : Nearest) (c : JsVal) :
    nearestSegmentStep T p st c = .ok (candidateStep (segmentCandidate T p) st c) := by
  cases h1 : T.lineString c with
  | error m =>
    simp [nearestSegmentStep, nearestSegmentTry, candidateStep, segmentCandidate, h1, call,
      bind, Except.bind, pure, Except.pure]
  | ok l =>
    cases h2 : T.nearestPointOnLine l p with
    | error m =>
      simp [nearestSegmentStep, nearestSegmentTry, candidateStep, segmentCandidate, h1, h2,
        call, bind, Except.bind, pure, Except.pure]
    | ok r =>
      cases r with
      | none =>
        simp [nearestSegmentStep, nearestSegmentTry, candidateStep, segmentCandidate, h1, h2,
          call, bind, Except.bind, pure, Except.pure]
      | some pt =>
        cases h3 : T.distance p pt with
        | error m =>
          simp [nearestSegmentStep, nearestSegmentTry, candidateStep, segmentCandidate, h1, h2,
            h3, call, bind, Except.bind, pure, Except.pure]
        | ok d =>
          by_cases hlt : d.lt st.minDist = true <;>
            simp [nearestSegmentStep, nearestSegmentTry, candidateStep, segmentCandidate, h1,
              h2, h3, call, bind, Except.bind, pure, Except.pure, hlt]

theorem nearestPointStep_eq (T : Turf) (p : Feature) (st : Nearest) (c : JsVal) (pf : Feature)
    (d : JsNum) (h1 : T.point c = .ok pf) (h2 : T.distance p pf = .ok d) :
    nearestPointStep T p st c = .ok (candidateStep (pointCandidate T p) st c) := by
  by_cases hlt : d.lt st.minDist = true <;>
    simp [nearestPointStep, candidateStep, pointCandidate, h1, h2, call, bind, Except.bind,
      pure, Except.pure, hlt]

theorem pointCandidate_eq_some_iff (T : Turf) (p : Feature) (c : JsVal) (d : JsNum)
    (pf : Feature) :
    pointCandidate T p c = some (d, pf) ↔ T.point c = .ok pf ∧ T.distance p pf = .ok d := by
  cases h1 : T.point c with
  | error m => simp [pointCandidate, h1]
  | ok pf1 =>
    cases h2 : T.distance p pf1 with
    | error m =>
      simp only [pointCandidate, h1, h2, Except.ok.injEq, false_iff, not_and, reduceCtorEq]
      intro h
      rw [← h, h2]
      simp
    | ok d1 =>
      simp only [pointCandidate, h1, h2, Option.some.injEq, Prod.mk.injEq, Except.ok.injEq]
      constructor
      · rintro ⟨rfl, rfl⟩
        exact ⟨rfl, h2⟩
      · rintro ⟨rfl, h⟩
        rw [h2] at h
        simp only [Except.ok.injEq] at h
        exact ⟨h, rfl⟩

theorem segmentCandidate_eq_some_iff (T : Turf) (p : Feature) (c : JsVal) (d : JsNum)
    (pt : Feature) :
    segmentCandidate T p c = some (d, pt) ↔
      ∃ l, T.lineString c = .ok l ∧ T.nearestPointOnLine l p = .ok (some pt) ∧
        T.distance p pt = .ok d := by
  cases h1 : T.lineString c with
  | error m => simp [segmentCandidate, h1]
  | ok l =>
    cases h2 : T.nearestPointOnLine l p with
    | error m => simp [segmentCandidate, h1, h2]
    | ok r =>
      cases r with
      | none => simp [segmentCandidate, h1, h2]
      | some pt1 =>
        cases h3 : T.distance p pt1 with
        | error m =>
          simp only [segmentCandidate, h1, h2, h3, Except.ok.injEq, exists_eq_left',
            Option.some.injEq, false_iff, not_and, reduceCtorEq]
          intro h
          rw [← h, h3]
          simp
        | ok d1 =>
          simp only [segmentCandidate, h1, h2, h3, Option.some.injEq, Prod.mk.injEq,
            Except.ok.injEq, exists_eq_left']
          constructor
          · rintro ⟨rfl, rfl⟩
            exact ⟨rfl, h3⟩
          · rintro ⟨rfl, h⟩
            rw [h3] at h
            simp only [Except.ok.injEq] at h
            exact ⟨h, rfl⟩

theorem foldl_candidateStep_spec (cand : JsVal → Option (JsNum × Feature)) (xs : List JsVal)
    (st : Nearest) (hnum : ∀ x ∈ xs, ∀ d pt, cand x = some (d, pt) → d ≠ JsNum.nan) :
    (xs.foldl (candidateStep cand) st = st ∧
        ∀ x ∈ xs, ∀ d pt, cand x = some (d, pt) → d.lt st.minDist = false) ∨
      ∃ pre c post d pt, xs = pre ++ c :: post ∧ cand c = some (d, pt) ∧
        xs.foldl (candidateStep cand) st = { minDist := d, candidatePoint := some pt } ∧
        d.lt st.minDist = true ∧
        (∀ x ∈ pre, ∀ d1 pt1, cand x = some (d1, pt1) → d.lt d1 = true) ∧
        (∀ x ∈ post, ∀ d1 pt1, cand x = some (d1, pt1) → d.le d1 = true) := by
  induction xs generalizing st with
  | nil =>
    left
    refine ⟨rfl, ?_⟩
    intro x hx
    cases hx
  | cons x xs ih =>
    have hnum1 : ∀ y ∈ xs, ∀ d pt, cand y = some (d, pt) → d ≠ JsNum.nan :=
      fun y hy d pt h => hnum y (List.mem_cons_of_mem x hy) d pt h
    simp only [List.foldl_cons]
    cases hx : cand x with
    | none =>
      have hstep : candidateStep cand st x = st := by simp [candidateStep, hx]
      rw [hstep]
      rcases ih st hnum1 with ⟨h1, h2⟩ | ⟨pre, c, post, d, pt, h1, h2, h3, h4, h5, h6⟩
      · left
        refine ⟨h1, ?_⟩
        intro y hy d pt hyc
        rcases List.mem_cons.1 hy with rfl | hy1
        · rw [hx] at hyc
          cases hyc
        · exact h2 y hy1 d pt hyc
      · right
        refine ⟨x :: pre, c, post, d, pt, by simp [h1], h2, h3, h4, ?_, h6⟩
        intro y hy d1 pt1 hyc
        rcases List.mem_cons.1 hy with rfl | hy1
        · rw [hx] at hyc
          cases hyc
        · exact h5 y hy1 d1 pt1 hyc
    | some cx =>
      obtain ⟨dx, ptx⟩ := cx
      have hdx : dx ≠ JsNum.nan := hnum x (List.mem_cons_self x xs) dx ptx hx
      cases hlt : dx.lt st.minDist with
      | true =>
        have hstep : candidateStep cand st x = { minDist := dx, candidatePoint := some ptx } := by
          simp [candidateStep, hx, hlt]
        rw [hstep]
        right
        rcases ih { minDist := dx, candidatePoint := some ptx } hnum1 with
          ⟨h1, h2⟩ | ⟨pre, c, post, d, pt, h1, h2, h3, h4, h5, h6⟩
        · refine ⟨[], x, xs, dx, ptx, rfl, hx, h1, hlt, ?_, ?_⟩
          · intro y hy
            cases hy
          · intro y hy d1 pt1 hyc
            exact JsNum.le_of_lt_false hdx (hnum1 y hy d1 pt1 hyc) (h2 y hy d1 pt1 hyc)
        · refine ⟨x :: pre, c, post, d, pt, by simp [h1], h2, h3, JsNum.lt_chain h4 hlt, ?_, h6⟩
          intro y hy d1 pt1 hyc
          rcases List.mem_cons.1 hy with rfl | hy1
          · rw [hx] at hyc
            simp only [Option.some.injEq, Prod.mk.injEq] at hyc
            exact hyc.1 ▸ h4
          · exact h5 y hy1 d1 pt1 hyc
      | false =>
        have hstep : candidateStep cand st x = st := by simp [candidateStep, hx, hlt]
        rw [hstep]
        rcases ih st hnum1 with ⟨h1, h2⟩ | ⟨pre, c, post, d, pt, h1, h2, h3, h4, h5, h6⟩
        · left
          refine ⟨h1, ?_⟩
          intro y hy d pt hyc
          rcases List.mem_cons.1 hy with rfl | hy1
          · rw [hx] at hyc
            simp only [Option.some.injEq, Prod.mk.injEq] at hyc
            exact hyc.1 ▸ hlt
          · exact h2 y hy1 d pt hyc
        · right
          refine ⟨x :: pre, c, post, d, pt, by simp [h1], h2, h3, h4, ?_, h6⟩
          intro y hy d1 pt1 hyc
          rcases List.mem_cons.1 hy with rfl | hy1
          · rw [hx] at hyc
            simp only [Option.some.injEq, Prod.mk.injEq] at hyc
            exact hyc.1 ▸ JsNum.lt_of_lt_of_lt_false hdx h4 hlt
          · exact h5 y hy1 d1 pt1 hyc

theorem foldl_candidateStep_first_minimum (cand : JsVal → Option (JsNum × Feature))
    (xs : List JsVal) (hfin : ∀ x ∈ xs, ∀ d pt, cand x = some (d, pt) → ∃ q, d = JsNum.fin q) :
    ((xs.foldl (candidateStep cand)
          { minDist := JsNum.posInf, candidatePoint := none }).candidatePoint = none ∧
        ∀ x ∈ xs, cand x = none) ∨
      ∃ pre c post d pt, xs = pre ++ c :: post ∧ cand c = some (d, pt) ∧
        (xs.foldl (candidateStep cand)
          { minDist := JsNum.posInf, candidatePoint := none }).candidatePoint = some pt ∧
        (∀ x ∈ pre, ∀ d1 pt1, cand x = some (d1, pt1) → d.lt d1 = true) ∧
        (∀ x ∈ post, ∀ d1 pt1, cand x = some (d1, pt1) → d.le d1 = true) := by
  have hnum : ∀ x ∈ xs, ∀ d pt, cand x = some (d, pt) → d ≠ JsNum.nan := by
    intro x hx d pt h
    obtain ⟨q, rfl⟩ := hfin x hx d pt h
    exact fun hq => JsNum.noConfusion hq
  rcases foldl_candidateStep_spec cand xs { minDist := JsNum.posInf, candidatePoint := none }
    hnum with ⟨h1, h2⟩ | ⟨pre, c, post, d, pt, h1, h2, h3, _, h5, h6⟩
  · left
    refine ⟨by rw [h1], ?_⟩
    intro x hx
    cases hc : cand x with
    | none => rfl
    | some cx =>
      obtain ⟨d, pt⟩ := cx
      obtain ⟨q, rfl⟩ := hfin x hx d pt hc
      have := h2 x hx _ pt hc
      simp [JsNum.lt] at this
  · right
    exact ⟨pre, c, post, d, pt, h1, h2, by rw [h3], h5, h6⟩

theorem getNearestPointOnFeature_multiPoint (T : Turf) (p feature : Feature) (g : Geometry)
    (points : List JsVal) (hg : feature.geometry = some g) (ht : g.type = "MultiPoint")
    (hc : g.coordinates = JsVal.arr points)
    (hok : ∀ c ∈ points, ∃ pf d, T.point c = .ok pf ∧ T.distance p pf = .ok d) :
    getNearestPointOnFeature T p feature =
      .ok (points.foldl (candidateStep (pointCandidate T p))
        { minDist := JsNum.posInf, candidatePoint := none }).candidatePoint := by
  have hloop : forEachList (nearestPointStep T p)
      { minDist := JsNum.posInf, candidatePoint := none } points =
      .ok (points.foldl (candidateStep (pointCandidate T p))
        { minDist := JsNum.posInf, candidatePoint := none }) := by
    apply forEachList_eq_foldl
    intro st c hcmem
    obtain ⟨pf, d, h1, h2⟩ := hok c hcmem
    exact nearestPointStep_eq T p st c pf d h1 h2
  simp [getNearestPointOnFeature, hg, nearestPointTry, ht, hc, forEach, hloop, bind,
    Except.bind, pure, Except.pure]

theorem getNearestPointOnFeature_multiLineString (T : Turf) (p feature : Feature)
    (g : Geometry) (lines : List JsVal) (hg : feature.geometry = some g)
    (ht : g.type = "MultiLineString") (hc : g.coordinates = JsVal.arr lines) :
    getNearestPointOnFeature T p feature =
      .ok (lines.foldl (candidateStep (segmentCandidate T p))
        { minDist := JsNum.posInf, candidatePoint := none }).candidatePoint := by
  have hloop : forEachList (nearestSegmentStep T p)
      { minDist := JsNum.posInf, candidatePoint := none } lines =
      .ok (lines.foldl (candidateStep (segmentCandidate T p))
        { minDist := JsNum.posInf, candidatePoint := none }) :=
    forEachList_eq_foldl _ _ lines (fun st c _ => nearestSegmentStep_eq T p st c) _
  simp [getNearestPointOnFeature, hg, nearestPointTry, lineForNearestPoint, ht, hc, forEach,
    hloop, JsVal.truthy, bind, Except.bind, pure, Except.pure]

/-- C14: nearest point on a MultiPoint.  For a MultiPoint whose point-to-point distances are
finite numbers, `getNearestPointOnFeature` returns `null` when the MultiPoint is empty, and
otherwise the point built from a constituent whose distance to the query point is `<=` the
distance to every constituent and `<` the distance to every earlier constituent (the first
nearest one in sequence order). -/
theorem nearest_point_on_multiPoint (T : Turf) (coordinatePoint feature : Feature)
    (g : Geometry) (points : List JsVal) (hg : feature.geometry = some g)
    (ht : g.type = "MultiPoint") (hc : g.coordinates = JsVal.arr points)
    (hfin : ∀ c ∈ points, ∃ pf q, T.point c = .ok pf ∧
      T.distance coordinatePoint pf = .ok (JsNum.fin q)) :
    (points = [] → getNearestPointOnFeature T coordinatePoint feature = .ok none) ∧
      (points ≠ [] → ∃ pre c post pf d, points = pre ++ c :: post ∧ T.point c = .ok pf ∧
        T.distance coordinatePoint pf = .ok d ∧
        getNearestPointOnFeature T coordinatePoint feature = .ok (some pf) ∧
        (∀ c1 ∈ points, ∀ d1, pointDistance T coordinatePoint c1 = .ok d1 → d.le d1 = true) ∧
        (∀ c1 ∈ pre, ∀ d1, pointDistance T coordinatePoint c1 = .ok d1 → d.lt d1 = true)) := by
  have hok : ∀ c ∈ points, ∃ pf d, T.point c = .ok pf ∧ T.distance coordinatePoint pf = .ok d :=
    fun c hcmem => (hfin c hcmem).imp fun pf ⟨q, h1, h2⟩ => ⟨JsNum.fin q, h1, h2⟩
  have hcand : ∀ c d1, pointDistance T coordinatePoint c = .ok d1 →
      ∃ pf1, pointCandidate T coordinatePoint c = some (d1, pf1) := by
    intro c d1 h
    obtain ⟨pf1, h1, h2⟩ := (pointDistance_ok_iff T coordinatePoint c d1).1 h
    exact ⟨pf1, (pointCandidate_eq_some_iff T coordinatePoint c d1 pf1).2 ⟨h1, h2⟩⟩
  have hfin1 : ∀ x ∈ points, ∀ d pt, pointCandidate T coordinatePoint x = some (d, pt) →
      ∃ q, d = JsNum.fin q := by
    intro x hx d pt h
    obtain ⟨h1, h2⟩ := (pointCandidate_eq_some_iff T coordinatePoint x d pt).1 h
    obtain ⟨pf, q, h3, h4⟩ := hfin x hx
    rw [h1] at h3
    simp only [Except.ok.injEq] at h3
    subst h3
    rw [h2] at h4
    simp only [Except.ok.injEq] at h4
    exact ⟨q, h4⟩
  rw [getNearestPointOnFeature_multiPoint T coordinatePoint feature g points hg ht hc hok]
  refine ⟨fun hnil => by subst hnil; rfl, fun hne => ?_⟩
  rcases foldl_candidateStep_first_minimum (pointCandidate T coordinatePoint) points hfin1 with
    ⟨_, h2⟩ | ⟨pre, c, post, d, pt, h1, h2, h3, h5, h6⟩
  · obtain ⟨c, rest, rfl⟩ := List.exists_cons_of_ne_nil hne
    obtain ⟨pf, q, h3, h4⟩ := hfin c (List.mem_cons_self c rest)
    have := (pointCandidate_eq_some_iff T coordinatePoint c _ pf).2 ⟨h3, h4⟩
    rw [h2 c (List.mem_cons_self c rest)] at this
    cases this
  · obtain ⟨hp1, hp2⟩ := (pointCandidate_eq_some_iff T coordinatePoint c d pt).1 h2
    have hdn : d ≠ JsNum.nan := by
      obtain ⟨q, rfl⟩ := hfin1 c (by simp [h1]) d pt h2
      exact fun hq => JsNum.noConfusion hq
    refine ⟨pre, c, post, pt, d, h1, hp1, hp2, by rw [h3], ?_, ?_⟩
    · intro c1 hc1 d1 hd1
      obtain ⟨pf1, hpf1⟩ := hcand c1 d1 hd1
      rw [h1] at hc1
      rcases List.mem_append.1 hc1 with hpre | hrest
      · exact JsNum.le_of_lt_true (h5 c1 hpre d1 pf1 hpf1)
      · rcases List.mem_cons.1 hrest with rfl | hpost
        · rw [h2] at hpf1
          simp only [Option.some.injEq, Prod.mk.injEq] at hpf1
          rw [← hpf1.1]
          exact JsNum.le_self hdn
        · exact h6 c1 hpost d1 pf1 hpf1
    · intro c1 hc1 d1 hd1
      obtain ⟨pf1, hpf1⟩ := hcand c1 d1 hd1
      exact h5 c1 hc1 d1 pf1 hpf1

theorem planarTurf_threePoints_finite :
    ∀ c ∈ [position 0 1, position 1 0, position 5 5], ∃ pf q, planarTurf.point c = .ok pf ∧
      planarTurf.distance (pointFeature 0 0) pf = .ok (JsNum.fin q) := by
  intro c hcmem
  simp only [List.mem_cons, List.mem_singleton, List.not_mem_nil, or_false] at hcmem
  rcases hcmem with rfl | rfl | rfl <;>
    simp [planarTurf, pointFeature, position, Feature.asPosition, JsVal.asPosition]

/-- C14 at the query point (0,0) and the MultiPoint [(0,1),(1,0),(5,5)]. -/
theorem nearest_point_on_multiPoint_witness :
    ∃ pre c post pf d, [position 0 1, position 1 0, position 5 5] = pre ++ c :: post ∧
      planarTurf.point c = .ok pf ∧ planarTurf.distance (pointFeature 0 0) pf = .ok d ∧
      getNearestPointOnFeature planarTurf (pointFeature 0 0) { geometry := some threePoints } =
        .ok (some pf) ∧
      (∀ c1 ∈ [position 0 1, position 1 0, position 5 5], ∀ d1,
        pointDistance planarTurf (pointFeature 0 0) c1 = .ok d1 → d.le d1 = true) ∧
      (∀ c1 ∈ pre, ∀ d1,
        pointDistance planarTurf (pointFeature 0 0) c1 = .ok d1 → d.lt d1 = true) :=
  (nearest_point_on_multiPoint planarTurf (pointFeature 0 0) { geometry := some threePoints }
    threePoints [position 0 1, position 1 0, position 5 5] rfl rfl rfl
    planarTurf_threePoints_finite).2 (List.cons_ne_nil _ _)

/-- C15: nearest point on a MultiLineString is best effort across parts.  A constituent line
yields a candidate when line construction, `nearestPointOnLine` and `distance` all succeed on it
(`segmentCandidate`); every other line is skipped.  With finite candidate distances,
`getNearestPointOnFeature` returns `null` if and only if no constituent line yields a candidate,
and otherwise returns the candidate point whose distance is `<=` that of every candidate and `<`
that of every earlier candidate (first encountered on ties). -/
theorem nearest_point_on_multiLineString (T : Turf) (coordinatePoint feature : Feature)
    (g : Geometry) (lines : List JsVal) (hg : feature.geometry = some g)
    (ht : g.type = "MultiLineString") (hc : g.coordinates = JsVal.arr lines)
    (hfin : ∀ l ∈ lines, ∀ d pt, segmentCandidate T coordinatePoint l = some (d, pt) →
      ∃ q, d = JsNum.fin q) :
    (getNearestPointOnFeature T coordinatePoint feature = .ok none ↔
        ∀ l ∈ lines, segmentCandidate T coordinatePoint l = none) ∧
      (∀ pt, getNearestPointOnFeature T coordinatePoint feature = .ok (some pt) →
        ∃ pre l post d, lines = pre ++ l :: post ∧
          segmentCandidate T coordinatePoint l = some (d, pt) ∧
          (∀ l1 ∈ pre, ∀ d1 pt1, segmentCandidate T coordinatePoint l1 = some (d1, pt1) →
            d.lt d1 = true) ∧
          (∀ l1 ∈ post, ∀ d1 pt1, segmentCandidate T coordinatePoint l1 = some (d1, pt1) →
            d.le d1 = true)) := by
  rw [getNearestPointOnFeature_multiLineString T coordinatePoint feature g lines hg ht hc]
  rcases foldl_candidateStep_first_minimum (segmentCandidate T coordinatePoint) lines hfin with
    ⟨h1, h2⟩ | ⟨pre, l, post, d, pt, h1, h2, h3, h5, h6⟩
  · rw [h1]
    refine ⟨⟨fun _ => h2, fun _ => rfl⟩, ?_⟩
    intro pt hpt
    simp at hpt
  · rw [h3]
    constructor
    · constructor
      · intro h
        simp at h
      · intro h
        have := h l (by simp [h1])
        rw [h2] at this
        cases this
    · intro pt1 hpt
      simp only [Except.ok.injEq, Option.some.injEq] at hpt
      subst hpt
      exact ⟨pre, l, post, d, h1, h2, h5, h6⟩

theorem planarTurf_segmentCandidate_finite (p : Feature) (l : JsVal) (d : JsNum) (pt : Feature)
    (h : segmentCandidate planarTurf p l = some (d, pt)) : ∃ q, d = JsNum.fin q := by
  obtain ⟨_, _, _, hd⟩ := (segmentCandidate_eq_some_iff planarTurf p l d pt).1 h
  obtain ⟨q, hq, _⟩ := planarTurf_distance_nonneg p pt d hd
  exact ⟨q, hq⟩

theorem planarTurf_nearest_mixedLines :
    getNearestPointOnFeature planarTurf (pointFeature 0 0) { geometry := some mixedLines } =
      .ok (some (pointFeature 3 0)) := by
  rw [getNearestPointOnFeature_multiLineString planarTurf (pointFeature 0 0) _ mixedLines
    [sampleLine, malformedLine] rfl rfl rfl]
  simp [candidateStep, segmentCandidate, planarTurf, sampleLine, malformedLine, pointFeature,
    position, Feature.asPosition, JsVal.asPosition, JsVal.isArrayLongerThanOne, planarDistance,
    JsNum.lt]

/-- C15 at the query point (0,0) and the MultiLineString made of the line [(3,0),(4,4)] and a
malformed line: the malformed line is skipped and the candidate of the first line is returned. -/
theorem nearest_point_on_multiLineString_witness :
    ∃ pre l post d, [sampleLine, malformedLine] = pre ++ l :: post ∧
      segmentCandidate planarTurf (pointFeature 0 0) l = some (d, pointFeature 3 0) ∧
      (∀ l1 ∈ pre, ∀ d1 pt1,
        segmentCandidate planarTurf (pointFeature 0 0) l1 = some (d1, pt1) → d.lt d1 = true) ∧
      (∀ l1 ∈ post, ∀ d1 pt1,
        segmentCandidate planarTurf (pointFeature 0 0) l1 = some (d1, pt1) → d.le d1 = true) :=
  (nearest_point_on_multiLineString planarTurf (pointFeature 0 0) { geometry := some mixedLines }
    mixedLines [sampleLine, malformedLine] rfl rfl rfl
    (fun l _ d pt h => planarTurf_segmentCandidate_finite (pointFeature 0 0) l d pt h)).2
    (pointFeature 3 0) planarTurf_nearest_mixedLines

/-! ## Area geometries -/

/-- C16 on the code: for the MultiPolygon of two squares and the query point (5,0), the
distance computation extracts the boundary of each constituent polygon (a LineString on which
`nearestPointOnLine` succeeds) and returns the distance 3, but `getNearestPointOnFeature` calls
`polygonToLine` once on the whole feature, gets a FeatureCollection without `geometry`, and
returns `null`. -/
theorem multiPolygon_nearest_point_absent :
    calculateDistanceToGeometry planarTurf (pointFeature 5 0) twoSquaresGeometry =
        .ok (JsNum.fin 3) ∧
      (∀ x ∈ twoSquares, ∃ poly line pt, planarTurf.polygon x = .ok poly ∧
        planarTurf.polygonToLine (GeoJson.feature poly) = .ok line ∧
        planarTurf.nearestPointOnLine line (pointFeature 5 0) = .ok (some pt)) ∧
      planarTurf.polygonToLine (GeoJson.feature { geometry := some twoSquaresGeometry }) =
        .ok { geometry := none } ∧
      getNearestPointOnFeature planarTurf (pointFeature 5 0)
        { geometry := some twoSquaresGeometry } = .ok none := by
  refine ⟨?_, ?_, rfl, ?_⟩
  · simp [calculateDistanceToGeometry, calculateDistanceToMultiPolygon, twoSquaresGeometry,
      twoSquares, forEach, forEachList, multiPolygonStep, planarTurf, linearRingError, call,
      pointFeature, position, Feature.asPosition, JsVal.asPosition, GeoJson.geom,
      planarVertexDistance, planarDistance, updateMin, JsNum.lt, bind, Except.bind, pure,
      Except.pure]
    norm_num
  · intro x hx
    simp only [twoSquares, List.mem_cons, List.mem_singleton, List.not_mem_nil, or_false] at hx
    rcases hx with rfl | rfl <;>
      simp [planarTurf, linearRingError, GeoJson.geom, pointFeature, position,
        Feature.asPosition, JsVal.asPosition]
  · simp [getNearestPointOnFeature, nearestPointTry, lineForNearestPoint, twoSquaresGeometry,
      planarTurf, call, GeoJson.geom, bind, Except.bind, pure, Except.pure]

/-- C17 as stated fails: the point (2,2) lies in the hole of the frame, so it is outside the
polygon, and the boundary of the frame is the MultiLineString of its two rings; the distance to
the polygon is 1 (the hole ring is the nearest), but the distance to the LineString of the
exterior ring is 2. -/
theorem boundary_consistency_counterexample :
    planarTurf.booleanPointInPolygon (pointFeature 2 2) { geometry := some framePolygon } =
        .ok false ∧
      planarTurf.polygonToLine (GeoJson.geometry framePolygon) =
        .ok { geometry := some
                { type := "MultiLineString",
                  coordinates := JsVal.arr [frameExterior, frameHole] } } ∧
      calculateDistanceToGeometry planarTurf (pointFeature 2 2) framePolygon =
        .ok (JsNum.fin 1) ∧
      calculateDistanceToGeometry planarTurf (pointFeature 2 2)
        { type := "LineString", coordinates := frameExterior } = .ok (JsNum.fin 2) := by
  refine ⟨?_, rfl, ?_, ?_⟩
  · simp [planarTurf, framePolygon, frameExterior, frameHole, pointFeature, position,
      Feature.asPosition, JsVal.asPosition, insideBoundingBox]
    norm_num
  · simp [calculateDistanceToGeometry, calculateDistanceToPolygon, framePolygon, frameExterior,
      frameHole, forEach, forEachList, boundaryPartStep, lineDistance, planarTurf, call,
      pointFeature, position, Feature.asPosition, JsVal.asPosition,
      JsVal.isArrayLongerThanOne, GeoJson.geom, planarVertexDistance, planarDistance, updateMin,
      JsNum.lt, bind, Except.bind, pure, Except.pure]
    norm_num
  · simp [calculateDistanceToGeometry, calculateDistanceToLineString, frameExterior, planarTurf,
      call, pointFeature, position, Feature.asPosition, JsVal.asPosition, GeoJson.geom,
      planarVertexDistance, planarDistance]
    norm_num

/-- C17 (amended): boundary consistency.  For a Polygon with a single ring, whose boundary is
the LineString of that ring, `calculateDistanceToGeometry` equals its value on the LineString of
the ring, for every query point.  For a Polygon with holes, whose boundary is the
MultiLineString of all its rings, it is the minimum of the line distances over the rings: it is
`<=` the distance to the LineString of the exterior ring, and equal to it exactly when no hole
ring is nearer than the exterior ring. -/
theorem boundary_consistency (T : Turf) (coordinatePoint : Feature) (g : Geometry)
    (ht : g.type = "Polygon") :
    (∀ (ring : JsVal) (b : Feature), g.coordinates = JsVal.arr [ring] →
      T.polygonToLine (GeoJson.geometry g) = .ok b →
      b.geometry = some { type := "LineString", coordinates := ring } →
      T.pointToLineDistance coordinatePoint (GeoJson.feature b) =
        T.pointToLineDistance coordinatePoint
          (GeoJson.geometry { type := "LineString", coordinates := ring }) →
      calculateDistanceToGeometry T coordinatePoint g =
        calculateDistanceToGeometry T coordinatePoint
          { type := "LineString", coordinates := ring }) ∧
    (∀ (exterior : JsVal) (holes : List JsVal) (b : Feature) (dExt : JsNum),
      g.coordinates = JsVal.arr (exterior :: holes) →
      T.polygonToLine (GeoJson.geometry g) = .ok b →
      b.geometry =
        some { type := "MultiLineString", coordinates := JsVal.arr (exterior :: holes) } →
      (∀ r ∈ exterior :: holes, ∃ d, lineDistance T coordinatePoint r = .ok d ∧
        d ≠ JsNum.nan) →
      lineDistance T coordinatePoint exterior = .ok dExt →
      calculateDistanceToGeometry T coordinatePoint
        { type := "LineString", coordinates := exterior } = .ok dExt →
      ∃ m, calculateDistanceToGeometry T coordinatePoint g = .ok m ∧ m.le dExt = true ∧
        (∃ r ∈ exterior :: holes, lineDistance T coordinatePoint r = .ok m) ∧
        (m = dExt ↔
          ∀ r ∈ holes, ∀ d, lineDistance T coordinatePoint r = .ok d → dExt.le d = true)) := by
  rw [calculateDistanceToGeometry_polygon T coordinatePoint g ht]
  constructor
  · intro ring b _ hb hbg hsame
    rw [calculateDistanceToPolygon_of_boundary T coordinatePoint g b _ hb hbg, if_pos rfl,
      calculateDistanceToGeometry_lineString T coordinatePoint
        { type := "LineString", coordinates := ring } rfl, hsame]
  · intro exterior holes b dExt _ hb hbg hd hext _
    rw [calculateDistanceToPolygon_of_boundary T coordinatePoint g b
        { type := "MultiLineString", coordinates := JsVal.arr (exterior :: holes) } hb hbg,
      if_neg (show ¬ (("MultiLineString" : String) = "LineString") by decide), if_pos rfl]
    simp only [forEach]
    obtain ⟨m, hm, h1, h2, _⟩ := forEachList_minimum (lineDistance T coordinatePoint)
      (boundaryPartStep T coordinatePoint) (exterior :: holes)
      (fun s x d hx => (boundaryPartStep_ok_iff T coordinatePoint s _ x).2 ⟨d, hx, rfl⟩) hd
    have hle : m.le dExt = true := h1 exterior (List.mem_cons_self _ _) dExt hext
    obtain ⟨r0, hr0, hr0m⟩ := h2 (List.cons_ne_nil _ _)
    refine ⟨m, hm, hle, ⟨r0, hr0, hr0m⟩, ?_⟩
    constructor
    · intro hmd r hr d hrd
      rw [← hmd]
      exact h1 r (List.mem_cons_of_mem _ hr) d hrd
    · intro hholes
      rcases List.mem_cons.1 hr0 with rfl | hr0h
      · rw [hext] at hr0m
        simp only [Except.ok.injEq] at hr0m
        exact hr0m.symm
      · exact JsNum.eq_of_le_of_le hle (hholes r0 hr0h m hr0m)

/-- C17 (amended) at the query point (5,0) and the one-ring square (0,0)-(2,2). -/
theorem boundary_consistency_witness :
    calculateDistanceToGeometry planarTurf (pointFeature 5 0)
        { type := "Polygon", coordinates := squareRings } =
      calculateDistanceToGeometry planarTurf (pointFeature 5 0)
        { type := "LineString", coordinates := squareRing } :=
  (boundary_consistency planarTurf (pointFeature 5 0)
    { type := "Polygon", coordinates := squareRings } rfl).1 squareRing
    { geometry := some { type := "LineString", coordinates := squareRing } } rfl rfl rfl rfl

/-! ## Order of the constituents -/

theorem foldl_minStep_perm (val : JsVal → Option JsNum) (xs ys : List JsVal)
    (h : xs.Perm ys) (init : JsNum) (hinit : init ≠ JsNum.nan)
    (hval : ∀ x ∈ xs, ∀ d, val x = some d → d ≠ JsNum.nan) :
    xs.foldl (minStep val) init = ys.foldl (minStep val) init := by
  have hval2 : ∀ x ∈ ys, ∀ d, val x = some d → d ≠ JsNum.nan :=
    fun x hx d hd => hval x (h.mem_iff.2 hx) d hd
  obtain ⟨_, a2, a3, a4⟩ := foldl_minStep_spec val xs init hinit hval
  obtain ⟨_, b2, b3, b4⟩ := foldl_minStep_spec val ys init hinit hval2
  apply JsNum.eq_of_le_of_le
  · rcases b4 with b4 | ⟨y, hy, hyv⟩
    · rw [b4]
      exact a2
    · exact a3 y (h.mem_iff.2 hy) _ hyv
  · rcases a4 with a4 | ⟨x, hx, hxv⟩
    · rw [a4]
      exact b2
    · exact b3 x (h.mem_iff.1 hx) _ hxv

theorem forEachList_ok_mem {σ : Type} (cb : σ → JsVal → Except JsError σ) (xs : List JsVal)
    (init r : σ) (h : forEachList cb init xs = .ok r) :
    ∀ x ∈ xs, ∃ s s1, cb s x = .ok s1 := by
  induction xs generalizing init with
  | nil =>
    intro x hx
    cases hx
  | cons y ys ih =>
    cases hy : cb init y with
    | error e => simp [forEachList, hy] at h
    | ok s1 =>
      simp only [forEachList, hy] at h
      intro x hx
      rcases List.mem_cons.1 hx with rfl | hmem
      · exact ⟨init, s1, hy⟩
      · exact ih s1 h x hmem

theorem forEachList_perm (cb : JsNum → JsVal → Except JsError JsNum)
    (hS : ∀ s s1 x, cb s x = .ok s1 →
      ∃ d, d ≠ JsNum.nan ∧ ∀ s2, cb s2 x = .ok (updateMin s2 d))
    (xs ys : List JsVal) (h : xs.Perm ys) (d : JsNum)
    (hxs : forEachList cb JsNum.posInf xs = .ok d) :
    forEachList cb JsNum.posInf ys = .ok d := by
  have hmem := forEachList_ok_mem cb xs _ d hxs
  have hshift : ∀ x ∈ xs, ∃ dx, dx ≠ JsNum.nan ∧ (cb JsNum.posInf x).toOption = some dx ∧
      ∀ s, cb s x = .ok (minStep (fun y => (cb JsNum.posInf y).toOption) s x) := by
    intro x hx
    obtain ⟨s, s1, hs⟩ := hmem x hx
    obtain ⟨dx, hdx, hall⟩ := hS s s1 x hs
    have h0 : cb JsNum.posInf x = .ok dx := by
      rw [hall JsNum.posInf, updateMin_posInf hdx]
    refine ⟨dx, hdx, by simp [h0, Except.toOption], fun s2 => ?_⟩
    simp [minStep, h0, Except.toOption, hall s2]
  have hval : ∀ x ∈ xs, ∀ d1, (cb JsNum.posInf x).toOption = some d1 → d1 ≠ JsNum.nan := by
    intro x hx d1 hd1
    obtain ⟨dx, hdx, hopt, _⟩ := hshift x hx
    rw [hopt] at hd1
    simp only [Option.some.injEq] at hd1
    exact hd1 ▸ hdx
  have h1 := forEachList_eq_foldl cb (minStep (fun y => (cb JsNum.posInf y).toOption)) xs
    (fun s x hx => (hshift x hx).choose_spec.2.2 s) JsNum.posInf
  have h2 := forEachList_eq_foldl cb (minStep (fun y => (cb JsNum.posInf y).toOption)) ys
    (fun s x hx => (hshift x (h.mem_iff.2 hx)).choose_spec.2.2 s) JsNum.posInf
  rw [h1] at hxs
  rw [h2, ← foldl_minStep_perm _ xs ys h JsNum.posInf (by decide) hval]
  exact hxs

theorem multiPointStep_shift (T : Turf) (p : Feature) (s s1 : JsNum) (x : JsVal)
    (h : multiPointStep T p s x = .ok s1) :
    ∃ d, d ≠ JsNum.nan ∧ ∀ s2, multiPointStep T p s2 x = .ok (updateMin s2 d) := by
  obtain ⟨dx, hdx, _⟩ := (multiPointStep_ok_iff T p s s1 x).1 h
  refine ⟨updateMin JsNum.posInf dx, updateMin_ne_nan dx (by decide), fun s2 => ?_⟩
  rw [← updateMin_assoc s2 dx (by decide), updateMin_posInf_right]
  exact (multiPointStep_ok_iff T p s2 _ x).2 ⟨dx, hdx, rfl⟩

theorem multiLineStringStep_shift (T : Turf) (p : Feature) (s s1 : JsNum) (x : JsVal)
    (h : multiLineStringStep T p s x = .ok s1) :
    ∃ d, d ≠ JsNum.nan ∧ ∀ s2, multiLineStringStep T p s2 x = .ok (updateMin s2 d) := by
  rcases (multiLineStringStep_ok_iff T p s s1 x).1 h with ⟨hshort, _⟩ | ⟨hlong, dx, hdx, _⟩
  · refine ⟨JsNum.posInf, by decide, fun s2 => ?_⟩
    rw [updateMin_posInf_right]
    exact (multiLineStringStep_ok_iff T p s2 _ x).2 (Or.inl ⟨hshort, rfl⟩)
  · refine ⟨updateMin JsNum.posInf dx, updateMin_ne_nan dx (by decide), fun s2 => ?_⟩
    rw [← updateMin_assoc s2 dx (by decide), updateMin_posInf_right]
    exact (multiLineStringStep_ok_iff T p s2 _ x).2 (Or.inr ⟨hlong, dx, hdx, rfl⟩)

theorem forEachList_boundaryPartStep_ok_any (T : Turf) (p : Feature) (parts : List JsVal)
    (s s1 s2 : JsNum) (h : forEachList (boundaryPartStep T p) s parts = .ok s1) :
    ∃ r, forEachList (boundaryPartStep T p) s2 parts = .ok r := by
  induction parts generalizing s s2 with
  | nil => exact ⟨s2, rfl⟩
  | cons x xs ih =>
    cases hx : boundaryPartStep T p s x with
    | error e => simp [forEachList, hx] at h
    | ok a =>
      simp only [forEachList, hx] at h
      obtain ⟨dx, hdx, _⟩ := (boundaryPartStep_ok_iff T p s a x).1 hx
      have hx2 : boundaryPartStep T p s2 x = .ok (updateMin s2 dx) :=
        (boundaryPartStep_ok_iff T p s2 _ x).2 ⟨dx, hdx, rfl⟩
      simp only [forEachList, hx2]
      exact ih a (updateMin s2 dx) h

theorem multiPolygonStep_posInf (T : Turf) (p : Feature) (s s1 : JsNum) (x : JsVal)
    (h : multiPolygonStep T p s x = .ok s1) :
    ∃ d, d ≠ JsNum.nan ∧ multiPolygonStep T p JsNum.posInf x = .ok d := by
  obtain ⟨poly, b, bg, hpoly, hb, hbg, hcase⟩ := (multiPolygonStep_ok_iff T p s s1 x).1 h
  rcases hcase with ⟨h1, dist, hdist, _⟩ | ⟨h1, h2, hloop⟩ | ⟨h1, h2, _⟩
  · exact ⟨updateMin JsNum.posInf dist, updateMin_ne_nan dist (by decide),
      (multiPolygonStep_ok_iff T p _ _ x).2
        ⟨poly, b, bg, hpoly, hb, hbg, Or.inl ⟨h1, dist, hdist, rfl⟩⟩⟩
  · cases hc : bg.coordinates with
    | undefined => simp [hc, forEach] at hloop
    | num n => simp [hc, forEach] at hloop
    | arr parts =>
      simp only [hc, forEach] at hloop
      obtain ⟨r, hr⟩ := forEachList_boundaryPartStep_ok_any T p parts s s1 JsNum.posInf hloop
      have hrn : r ≠ JsNum.nan :=
        forEachList_invariant (fun a => a ≠ JsNum.nan) (boundaryPartStep T p)
          (fun a y a1 ha hstep => by
            obtain ⟨dy, _, rfl⟩ := (boundaryPartStep_ok_iff T p a a1 y).1 hstep
            exact updateMin_ne_nan dy ha)
          parts JsNum.posInf r (by decide) hr
      refine ⟨r, hrn, (multiPolygonStep_ok_iff T p _ _ x).2
        ⟨poly, b, bg, hpoly, hb, hbg, Or.inr (Or.inl ⟨h1, h2, ?_⟩)⟩⟩
      simp only [hc, forEach]
      exact hr
  · exact ⟨JsNum.posInf, by decide, (multiPolygonStep_ok_iff T p _ _ x).2
      ⟨poly, b, bg, hpoly, hb, hbg, Or.inr (Or.inr ⟨h1, h2, rfl⟩)⟩⟩

theorem planarTurf_pair_finite (x1 y1 x2 y2 : ℚ) :
    ∀ c ∈ [position x1 y1, position x2 y2], ∃ pf d, planarTurf.point c = .ok pf ∧
      planarTurf.distance (pointFeature 0 0) pf = .ok d := by
  intro c hcmem
  simp only [List.mem_cons, List.mem_singleton, List.not_mem_nil, or_false] at hcmem
  rcases hcmem with rfl | rfl <;>
    simp [planarTurf, pointFeature, position, Feature.asPosition, JsVal.asPosition]

theorem planarTurf_nearest_first :
    getNearestPointOnFeature planarTurf (pointFeature 0 0)
        { geometry := some (multiPointOf [position 0 1, position 1 0]) } =
      .ok (some (pointFeature 0 1)) := by
  rw [getNearestPointOnFeature_multiPoint planarTurf (pointFeature 0 0) _
    (multiPointOf [position 0 1, position 1 0]) [position 0 1, position 1 0] rfl rfl rfl
    (planarTurf_pair_finite _ _ _ _)]
  simp [candidateStep, pointCandidate, planarTurf, pointFeature, position, Feature.asPosition,
    JsVal.asPosition, JsNum.lt, planarDistance]

theorem planarTurf_nearest_swapped :
    getNearestPointOnFeature planarTurf (pointFeature 0 0)
        { geometry := some (multiPointOf [position 1 0, position 0 1]) } =
      .ok (some (pointFeature 1 0)) := by
  rw [getNearestPointOnFeature_multiPoint planarTurf (pointFeature 0 0) _
    (multiPointOf [position 1 0, position 0 1]) [position 1 0, position 0 1] rfl rfl rfl
    (planarTurf_pair_finite _ _ _ _)]
  simp [candidateStep, pointCandidate, planarTurf, pointFeature, position, Feature.asPosition,
    JsVal.asPosition, JsNum.lt, planarDistance]

/-- C18: only the magnitude is observable, so the order of the constituents does not matter for
the distance.  If `calculateDistanceToGeometry` returns `d` on a MultiPoint, MultiLineString or
MultiPolygon (no call threw), it returns the same `d` on every permutation of the constituent
points, lines or polygons.  `getNearestPointOnFeature`, in contrast, depends on the order: there
is a MultiPoint and a permutation of it on which it returns different points. -/
theorem distance_permutation_invariant (T : Turf) (coordinatePoint : Feature)
    (xs ys : List JsVal) (d : JsNum) (h : xs.Perm ys) :
    (calculateDistanceToGeometry T coordinatePoint
        { type := "MultiPoint", coordinates := JsVal.arr xs } = .ok d →
      calculateDistanceToGeometry T coordinatePoint
        { type := "MultiPoint", coordinates := JsVal.arr ys } = .ok d) ∧
    (calculateDistanceToGeometry T coordinatePoint
        { type := "MultiLineString", coordinates := JsVal.arr xs } = .ok d →
      calculateDistanceToGeometry T coordinatePoint
        { type := "MultiLineString", coordinates := JsVal.arr ys } = .ok d) ∧
    (calculateDistanceToGeometry T coordinatePoint
        { type := "MultiPolygon", coordinates := JsVal.arr xs } = .ok d →
      calculateDistanceToGeometry T coordinatePoint
        { type := "MultiPolygon", coordinates := JsVal.arr ys } = .ok d) ∧
    (∃ (T1 : Turf) (q : Feature) (l1 l2 : List JsVal), l1.Perm l2 ∧
      getNearestPointOnFeature T1 q
          { geometry := some { type := "MultiPoint", coordinates := JsVal.arr l1 } } ≠
        getNearestPointOnFeature T1 q
          { geometry := some { type := "MultiPoint", coordinates := JsVal.arr l2 } }) := by
  refine ⟨?_, ?_, ?_, ?_⟩
  · intro hxs
    rw [calculateDistanceToGeometry_multiPoint_eq T coordinatePoint _ rfl] at hxs ⊢
    simp only [calculateDistanceToMultiPoint, forEach] at hxs ⊢
    exact forEachList_perm _ (multiPointStep_shift T coordinatePoint) xs ys h d hxs
  · intro hxs
    rw [calculateDistanceToGeometry_multiLineString T coordinatePoint _ rfl] at hxs ⊢
    simp only [calculateDistanceToMultiLineString, forEach] at hxs ⊢
    exact forEachList_perm _ (multiLineStringStep_shift T coordinatePoint) xs ys h d hxs
  · intro hxs
    rw [calculateDistanceToGeometry_multiPolygon T coordinatePoint _ rfl] at hxs ⊢
    simp only [calculateDistanceToMultiPolygon, forEach] at hxs ⊢
    refine forEachList_perm _ ?_ xs ys h d hxs
    intro s s1 x hstep
    obtain ⟨d0, hd0, hstep0⟩ := multiPolygonStep_posInf T coordinatePoint s s1 x hstep
    exact ⟨d0, hd0, fun s2 => multiPolygonStep_shift T coordinatePoint x s2 d0 hstep0⟩
  · refine ⟨planarTurf, pointFeature 0 0, [position 0 1, position 1 0],
      [position 1 0, position 0 1], List.Perm.swap _ _ _, ?_⟩
    have h1 := planarTurf_nearest_first
    have h2 := planarTurf_nearest_swapped
    simp only [multiPointOf] at h1 h2
    rw [h1, h2]
    simp [pointFeature, position]

/-- C18 at the query point (0,0): the MultiPoint [(1,0),(0,1),(5,5)] gives the distance 1 that
[(0,1),(1,0),(5,5)] gives. -/
theorem distance_permutation_invariant_witness :
    calculateDistanceToGeometry planarTurf (pointFeature 0 0)
        { type := "MultiPoint",
          coordinates := JsVal.arr [position 1 0, position 0 1, position 5 5] } =
      .ok (JsNum.fin 1) :=
  (distance_permutation_invariant planarTurf (pointFeature 0 0)
    [position 0 1, position 1 0, position 5 5] [position 1 0, position 0 1, position 5 5]
    (JsNum.fin 1) (List.Perm.swap _ _ _)).1
    ((calculateFeatureDistance_some_cases planarTurf (pointFeature 0 0)
      { geometry := some threePoints } threePoints _ rfl planarTurf_threePoints).resolve_left
      (fun h => by simp at h)).1

/-! ## Agreement of the two feature-level operations -/

/-- C19: the two operations agree on a MultiPoint.  For a non-empty MultiPoint whose
point-to-point distances are finite numbers, the distance from the query point to the point
returned by `getNearestPointOnFeature` equals the distance returned by
`calculateDistanceToGeometry`, and hence by `calculateFeatureDistance`, for the same
geometry. -/
theorem nearest_point_distance_agrees (T : Turf) (coordinatePoint feature : Feature)
    (g : Geometry) (points : List JsVal) (hg : feature.geometry = some g)
    (ht : g.type = "MultiPoint") (hc : g.coordinates = JsVal.arr points) (hne : points ≠ [])
    (hfin : ∀ c ∈ points, ∃ pf q, T.point c = .ok pf ∧
      T.distance coordinatePoint pf = .ok (JsNum.fin q)) :
    ∃ pf d, getNearestPointOnFeature T coordinatePoint feature = .ok (some pf) ∧
      T.distance coordinatePoint pf = .ok d ∧
      calculateDistanceToGeometry T coordinatePoint g = .ok d ∧
      calculateFeatureDistance T coordinatePoint feature =
        .ok (some { distance := d, isContaining := false }) := by
  have hok : ∀ c ∈ points, ∃ pf d, T.point c = .ok pf ∧ T.distance coordinatePoint pf = .ok d :=
    fun c hcmem => (hfin c hcmem).imp fun pf ⟨q, h1, h2⟩ => ⟨JsNum.fin q, h1, h2⟩
  have hcand : ∀ c d1, pointDistance T coordinatePoint c = .ok d1 →
      ∃ pf1, pointCandidate T coordinatePoint c = some (d1, pf1) := by
    intro c d1 h
    obtain ⟨pf1, h1, h2⟩ := (pointDistance_ok_iff T coordinatePoint c d1).1 h
    exact ⟨pf1, (pointCandidate_eq_some_iff T coordinatePoint c d1 pf1).2 ⟨h1, h2⟩⟩
  have hfin1 : ∀ x ∈ points, ∀ d pt, pointCandidate T coordinatePoint x = some (d, pt) →
      ∃ q, d = JsNum.fin q := by
    intro x hx d pt h
    obtain ⟨h1, h2⟩ := (pointCandidate_eq_some_iff T coordinatePoint x d pt).1 h
    obtain ⟨pf, q, h3, h4⟩ := hfin x hx
    rw [h1] at h3
    simp only [Except.ok.injEq] at h3
    subst h3
    rw [h2] at h4
    simp only [Except.ok.injEq] at h4
    exact ⟨q, h4⟩
  have hd : ∀ c ∈ points, ∃ d, pointDistance T coordinatePoint c = .ok d ∧ d ≠ JsNum.nan := by
    intro c hcmem
    obtain ⟨pf, q, h1, h2⟩ := hfin c hcmem
    exact ⟨JsNum.fin q, (pointDistance_ok_iff T coordinatePoint c _).2 ⟨pf, h1, h2⟩,
      fun hq => JsNum.noConfusion hq⟩
  obtain ⟨m, hm, a1, a2, _⟩ := forEachList_minimum (pointDistance T coordinatePoint)
    (multiPointStep T coordinatePoint) points
    (fun s x d hx => (multiPointStep_ok_iff T coordinatePoint s _ x).2 ⟨d, hx, rfl⟩) hd
  have hdist : calculateDistanceToGeometry T coordinatePoint g = .ok m := by
    rw [calculateDistanceToGeometry_multiPoint_eq T coordinatePoint g ht]
    simp only [calculateDistanceToMultiPoint, hc, forEach]
    exact hm
  rw [getNearestPointOnFeature_multiPoint T coordinatePoint feature g points hg ht hc hok]
  rcases foldl_candidateStep_first_minimum (pointCandidate T coordinatePoint) points hfin1 with
    ⟨_, h2⟩ | ⟨pre, c, post, d, pt, h1, h2, h3, h5, h6⟩
  · obtain ⟨c, rest, rfl⟩ := List.exists_cons_of_ne_nil hne
    obtain ⟨pf, q, h3, h4⟩ := hfin c (List.mem_cons_self c rest)
    have := (pointCandidate_eq_some_iff T coordinatePoint c _ pf).2 ⟨h3, h4⟩
    rw [h2 c (List.mem_cons_self c rest)] at this
    cases this
  · obtain ⟨hp1, hp2⟩ := (pointCandidate_eq_some_iff T coordinatePoint c d pt).1 h2
    have hcmem : c ∈ points := by simp [h1]
    have hdn : d ≠ JsNum.nan := by
      obtain ⟨q, rfl⟩ := hfin1 c hcmem d pt h2
      exact fun hq => JsNum.noConfusion hq
    have hmd : m.le d = true :=
      a1 c hcmem d ((pointDistance_ok_iff T coordinatePoint c d).2 ⟨pt, hp1, hp2⟩)
    have hdm : d.le m = true := by
      obtain ⟨c1, hc1, hc1m⟩ := a2 hne
      obtain ⟨pf1, hpf1⟩ := hcand c1 m hc1m
      rw [h1] at hc1
      rcases List.mem_append.1 hc1 with hpre | hrest
      · exact JsNum.le_of_lt_true (h5 c1 hpre m pf1 hpf1)
      · rcases List.mem_cons.1 hrest with rfl | hpost
        · rw [h2] at hpf1
          simp only [Option.some.injEq, Prod.mk.injEq] at hpf1
          rw [← hpf1.1]
          exact JsNum.le_self hdn
        · exact h6 c1 hpost m pf1 hpf1
    have heq : d = m := JsNum.eq_of_le_of_le hdm hmd
    subst heq
    refine ⟨pt, d, by rw [h3], hp2, hdist, ?_⟩
    exact calculateFeatureDistance_of_distance T coordinatePoint feature g d hg
      (by simp [containmentShortCircuit, ht]) hdist

/-- C19 at the query point (0,0) and the MultiPoint [(0,1),(1,0),(5,5)]. -/
theorem nearest_point_distance_agrees_witness :
    ∃ pf d, getNearestPointOnFeature planarTurf (pointFeature 0 0)
        { geometry := some threePoints } = .ok (some pf) ∧
      planarTurf.distance (pointFeature 0 0) pf = .ok d ∧
      calculateDistanceToGeometry planarTurf (pointFeature 0 0) threePoints = .ok d ∧
      calculateFeatureDistance planarTurf (pointFeature 0 0) { geometry := some threePoints } =
        .ok (some { distance := d, isContaining := false }) :=
  nearest_point_distance_agrees planarTurf (pointFeature 0 0) { geometry := some threePoints }
    threePoints [position 0 1, position 1 0, position 5 5] rfl rfl rfl (List.cons_ne_nil _ _)
    planarTurf_threePoints_finite

end DistanceCalculator
